import Mathlib

/-!
# SmartHome: GPIO pin table, indexed GPIO driver, Timer0 driver and HAL wrappers

A shallow embedding of `mcal/gpio.c`, `mcal/gpio.h`, `mcal/timer_0.c`,
`mcal/timer_0.h`, `mcal/atmega32_regs.h`, `common/common_macros.h`,
`hal/ldr.c`, `hal/dcMotor.c`, `hal/dcMotor.h`, `hal/lcd.c`, `hal/lcd.h`,
`hal/led.c`, `hal/led.h`, `hal/buzzer.c`, `hal/buzzer.h`, `hal/pushbutton.c`,
`hal/pushbutton.h` and the light part of the loop of `app/main.c`.

* A register is a byte held as a `Nat`; every store into a register truncates
  to eight bits (`% 256`).
* The operands of the bit macros are promoted to the 16-bit `int` of the AVR
  target, so `~x` is `0xFFFF ^^^ x`.
* The register file is a function from register names to bytes.
* A read of the flash table `ioPins` outside its 32 entries has no defined
  result: the indexed operations return `none` there.
* `int` is the 16-bit `int` of the target; an `int` operation whose value does
  not fit has no defined result (`none`).
* The calls of `LCD_sendCommand` and `LCD_sendChar` are recorded, in order, in
  a list carried next to the register file.
-/

namespace SmartHome

/-! ## common/common_macros.h and common/std_types.h -/

/-- The macro `SET_BIT(REG, BIT)`: `REG |= (1 << BIT)`, stored into a byte. -/
def SET_BIT (REG BIT : Nat) : Nat := (REG ||| (1 <<< BIT)) % 256

/-- The macro `CLEAR_BIT(REG, BIT)`: `REG &= ~(1 << BIT)`, stored into a byte. -/
def CLEAR_BIT (REG BIT : Nat) : Nat := (REG &&& (0xFFFF ^^^ (1 <<< BIT))) % 256

/-- The macro `GET_BIT(REG, BIT_NO)`: `((REG) & (1 << BIT_NO)) >> BIT_NO`. -/
def GET_BIT (REG BIT_NO : Nat) : Nat := (REG &&& (1 <<< BIT_NO)) >>> BIT_NO

def LOGIC_HIGH : Nat := 1
def LOGIC_LOW : Nat := 0
def FALSE : Nat := 0
def TRUE : Nat := 1

/-! ## Register map -/

/-- The memory-mapped registers used by the GPIO and Timer0 drivers. -/
inductive Reg
  | PINA | PORTA | DDRA
  | PINB | PORTB | DDRB
  | PINC | PORTC | DDRC
  | PIND | PORTD | DDRD
  | TCCR0 | TCNT0 | OCR0 | TIMSK
  deriving DecidableEq, Repr

/-- The register file: the byte held by each register. -/
abbrev Regs := Reg → Nat

/-- Store of a byte into one register. -/
def Regs.write (s : Regs) (r : Reg) (v : Nat) : Regs := Function.update s r v

/-! ## mcal/gpio.h -/

def NUM_OF_PORTS : Nat := 4
def NUM_OF_PINS_PER_PORT : Nat := 8
def NUM_OF_PINS : Nat := 32
def PORTA_ID : Nat := 0
def PORTB_ID : Nat := 1
def PORTC_ID : Nat := 2
def PORTD_ID : Nat := 3

/-- The enum `pinDirection`. -/
def PIN_INPUT : Nat := 0
def PIN_OUTPUT : Nat := 1
def PIN_INPUT_PULLUP : Nat := 2

/-- The enum `pinState`. -/
def LOW : Nat := 0
def HIGH : Nat := 1

/-- The port letter that the macro `GPIO_PIN(port, bit)` pastes onto
`PIN`, `PORT` and `DDR`. -/
inductive PortName
  | A | B | C | D
  deriving DecidableEq, Repr

/-- The token `PIN##port`. -/
def PortName.PIN : PortName → Reg
  | .A => .PINA | .B => .PINB | .C => .PINC | .D => .PIND

/-- The token `PORT##port`. -/
def PortName.PORT : PortName → Reg
  | .A => .PORTA | .B => .PORTB | .C => .PORTC | .D => .PORTD

/-- The token `DDR##port`. -/
def PortName.DDR : PortName → Reg
  | .A => .DDRA | .B => .DDRB | .C => .DDRC | .D => .DDRD

/-- The port identifiers `PORTA_ID` .. `PORTD_ID` as the port-level driver
switches on them; any other number names no port. -/
def portOfId (port_num : Nat) : Option PortName :=
  if port_num = PORTA_ID then some .A
  else if port_num = PORTB_ID then some .B
  else if port_num = PORTC_ID then some .C
  else if port_num = PORTD_ID then some .D
  else none

/-- The struct `gpioStruct`: the three register addresses of a pin and its
bit number. -/
structure gpioStruct where
  pin_addr : Reg
  port_addr : Reg
  ddr_addr : Reg
  pin : Nat
  deriving DecidableEq, Repr

/-- The macro `GPIO_PIN(port, bit)`:
`{ &(PIN##port), &(PORT##port), &(DDR##port), bit }`. -/
def GPIO_PIN (port : PortName) (bit : Nat) : gpioStruct :=
  { pin_addr := port.PIN, port_addr := port.PORT, ddr_addr := port.DDR, pin := bit }

/-- Modelled from the spec: the bit-number constants `PA0`..`PD7` come from the
toolchain header `avr/io.h`, which is not among the sources; bit `n` of a port
has the number `n` ("identifiers 0-7 -> portA bits 0-7"). -/
def Pxn (n : Nat) : Nat := n

/-- The enum `GPIO_PINS_ARR`. -/
inductive GPIO_PINS_ARR
  | GPIO_PA0 | GPIO_PA1 | GPIO_PA2 | GPIO_PA3 | GPIO_PA4 | GPIO_PA5 | GPIO_PA6 | GPIO_PA7
  | GPIO_PB0 | GPIO_PB1 | GPIO_PB2 | GPIO_PB3 | GPIO_PB4 | GPIO_PB5 | GPIO_PB6 | GPIO_PB7
  | GPIO_PC0 | GPIO_PC1 | GPIO_PC2 | GPIO_PC3 | GPIO_PC4 | GPIO_PC5 | GPIO_PC6 | GPIO_PC7
  | GPIO_PD0 | GPIO_PD1 | GPIO_PD2 | GPIO_PD3 | GPIO_PD4 | GPIO_PD5 | GPIO_PD6 | GPIO_PD7
  deriving DecidableEq, Repr, Fintype

/-- The value the enum gives each enumerator. -/
def GPIO_PINS_ARR.val : GPIO_PINS_ARR → Nat
  | GPIO_PA0 => 0 | GPIO_PA1 => 1 | GPIO_PA2 => 2 | GPIO_PA3 => 3
  | GPIO_PA4 => 4 | GPIO_PA5 => 5 | GPIO_PA6 => 6 | GPIO_PA7 => 7
  | GPIO_PB0 => 8 | GPIO_PB1 => 9 | GPIO_PB2 => 10 | GPIO_PB3 => 11
  | GPIO_PB4 => 12 | GPIO_PB5 => 13 | GPIO_PB6 => 14 | GPIO_PB7 => 15
  | GPIO_PC0 => 16 | GPIO_PC1 => 17 | GPIO_PC2 => 18 | GPIO_PC3 => 19
  | GPIO_PC4 => 20 | GPIO_PC5 => 21 | GPIO_PC6 => 22 | GPIO_PC7 => 23
  | GPIO_PD0 => 24 | GPIO_PD1 => 25 | GPIO_PD2 => 26 | GPIO_PD3 => 27
  | GPIO_PD4 => 28 | GPIO_PD5 => 29 | GPIO_PD6 => 30 | GPIO_PD7 => 31

/-- The port identifier that the name of an enumerator spells
("corresponding to pin n in Port X"). -/
def GPIO_PINS_ARR.portId : GPIO_PINS_ARR → Nat
  | GPIO_PA0 | GPIO_PA1 | GPIO_PA2 | GPIO_PA3
  | GPIO_PA4 | GPIO_PA5 | GPIO_PA6 | GPIO_PA7 => PORTA_ID
  | GPIO_PB0 | GPIO_PB1 | GPIO_PB2 | GPIO_PB3
  | GPIO_PB4 | GPIO_PB5 | GPIO_PB6 | GPIO_PB7 => PORTB_ID
  | GPIO_PC0 | GPIO_PC1 | GPIO_PC2 | GPIO_PC3
  | GPIO_PC4 | GPIO_PC5 | GPIO_PC6 | GPIO_PC7 => PORTC_ID
  | GPIO_PD0 | GPIO_PD1 | GPIO_PD2 | GPIO_PD3
  | GPIO_PD4 | GPIO_PD5 | GPIO_PD6 | GPIO_PD7 => PORTD_ID

/-- The bit number that the name of an enumerator spells. -/
def GPIO_PINS_ARR.bit : GPIO_PINS_ARR → Nat
  | GPIO_PA0 | GPIO_PB0 | GPIO_PC0 | GPIO_PD0 => 0
  | GPIO_PA1 | GPIO_PB1 | GPIO_PC1 | GPIO_PD1 => 1
  | GPIO_PA2 | GPIO_PB2 | GPIO_PC2 | GPIO_PD2 => 2
  | GPIO_PA3 | GPIO_PB3 | GPIO_PC3 | GPIO_PD3 => 3
  | GPIO_PA4 | GPIO_PB4 | GPIO_PC4 | GPIO_PD4 => 4
  | GPIO_PA5 | GPIO_PB5 | GPIO_PC5 | GPIO_PD5 => 5
  | GPIO_PA6 | GPIO_PB6 | GPIO_PC6 | GPIO_PD6 => 6
  | GPIO_PA7 | GPIO_PB7 | GPIO_PC7 | GPIO_PD7 => 7

/-! ## mcal/gpio.c: the pin table and the indexed driver -/

/-- The flash-resident table `ioPins[NUM_OF_PINS]`. -/
def ioPins : List gpioStruct :=
  [ -- Port A
    GPIO_PIN .A (Pxn 0), GPIO_PIN .A (Pxn 1), GPIO_PIN .A (Pxn 2), GPIO_PIN .A (Pxn 3),
    GPIO_PIN .A (Pxn 4), GPIO_PIN .A (Pxn 5), GPIO_PIN .A (Pxn 6), GPIO_PIN .A (Pxn 7),
    -- Port B
    GPIO_PIN .B (Pxn 0), GPIO_PIN .B (Pxn 1), GPIO_PIN .B (Pxn 2), GPIO_PIN .B (Pxn 3),
    GPIO_PIN .B (Pxn 4), GPIO_PIN .B (Pxn 5), GPIO_PIN .B (Pxn 6), GPIO_PIN .B (Pxn 7),
    -- Port C
    GPIO_PIN .C (Pxn 0), GPIO_PIN .C (Pxn 1), GPIO_PIN .C (Pxn 2), GPIO_PIN .C (Pxn 3),
    GPIO_PIN .C (Pxn 4), GPIO_PIN .C (Pxn 5), GPIO_PIN .C (Pxn 6), GPIO_PIN .C (Pxn 7),
    -- Port D
    GPIO_PIN .D (Pxn 0), GPIO_PIN .D (Pxn 1), GPIO_PIN .D (Pxn 2), GPIO_PIN .D (Pxn 3),
    GPIO_PIN .D (Pxn 4), GPIO_PIN .D (Pxn 5), GPIO_PIN .D (Pxn 6), GPIO_PIN .D (Pxn 7) ]

/-- The fetch of entry `a_pin` of `ioPins` from program memory
(`PGM_readPtrToRam` / `pgm_read_byte` on `&ioPins[a_pin]`): `none` when the
index lies outside the table. -/
def pgm_read_ioPins (a_pin : Nat) : Option gpioStruct := ioPins[a_pin]?

/-- The function `GPIO_ARR_setPinState(a_pin, a_value)`. -/
def GPIO_ARR_setPinState (a_pin a_value : Nat) (s : Regs) : Option Regs :=
  if a_pin > NUM_OF_PINS then some s
  else do
    let port ← (pgm_read_ioPins a_pin).map (·.port_addr)
    let pin ← (pgm_read_ioPins a_pin).map (·.pin)
    if a_value = HIGH then
      some (s.write port (SET_BIT (s port) pin))
    else
      some (s.write port (CLEAR_BIT (s port) pin))

/-- The function `GPIO_ARR_setPinDirection(a_pin, a_state)`. -/
def GPIO_ARR_setPinDirection (a_pin a_state : Nat) (s : Regs) : Option Regs :=
  if a_pin > NUM_OF_PINS then some s
  else do
    let ddr ← (pgm_read_ioPins a_pin).map (·.ddr_addr)
    let port ← (pgm_read_ioPins a_pin).map (·.port_addr)
    let pin ← (pgm_read_ioPins a_pin).map (·.pin)
    if a_state = PIN_INPUT then
      some (s.write ddr (CLEAR_BIT (s ddr) pin))
    else if a_state = PIN_OUTPUT then
      some (s.write ddr (SET_BIT (s ddr) pin))
    else if a_state = PIN_INPUT_PULLUP then
      let s1 := s.write ddr (CLEAR_BIT (s ddr) pin)
      some (s1.write port (SET_BIT (s1 port) pin))
    else
      some s

/-- The function `GPIO_ARR_readPin(a_pin)`; the result is a `uint8`. The body
stores into no register, so the register file is handed back as it came. -/
def GPIO_ARR_readPin (a_pin : Nat) (s : Regs) : Option (Nat × Regs) :=
  if a_pin > NUM_OF_PINS then some (0, s)
  else do
    let pin_addr ← (pgm_read_ioPins a_pin).map (·.pin_addr)
    let pin ← (pgm_read_ioPins a_pin).map (·.pin)
    some (GET_BIT (s pin_addr) pin % 256, s)

/-! ## mcal/timer_0.h, mcal/atmega32_regs.h and mcal/timer_0.c -/

def TIMER0_CS_BITMASK : Nat := 0x07
def TIMER_COMP_OUT_MODE_BIT_0 : Nat := 0
def TIMER_COMP_OUT_MODE_BIT_1 : Nat := 1

/-- The enum of `Timer0_Config.mode`. -/
def TIMER0_MODE_NORMAL : Nat := 0
def TIMER0_MODE_CTC : Nat := 1
def TIMER0_MODE_FAST_PWM : Nat := 2

/-- The struct `Timer0_Config`. The three enum fields and the `boolean` flag
are held as the integers the caller stored in them. -/
structure Timer0_Config where
  mode : Nat
  clockSource : Nat
  compareOutputMode : Nat
  interrupt : Nat
  tick : Nat
  intialCount : Nat
  deriving DecidableEq, Repr

/-- Bit positions of the bit-fields of `union TCCR0_reg`, in declaration order
from bit 0: cs00, cs01, cs02, wgm01, com00, com01, wgm00, foc0. -/
def TCCR0_cs00 : Nat := 0
def TCCR0_cs01 : Nat := 1
def TCCR0_cs02 : Nat := 2
def TCCR0_wgm01 : Nat := 3
def TCCR0_com00 : Nat := 4
def TCCR0_com01 : Nat := 5
def TCCR0_wgm00 : Nat := 6
def TCCR0_foc0 : Nat := 7

/-- Bit positions of the Timer0 bit-fields of `union TIMSK_reg`: toie0, ocie0. -/
def TIMSK_toie0 : Nat := 0
def TIMSK_ocie0 : Nat := 1

/-- Assignment `REG.bits.field = v` to the one-bit bit-field at bit `pos` of a
register byte: the field keeps the low bit of `v`, the other bits stay. -/
def writeBitField (reg pos v : Nat) : Nat :=
  ((reg &&& (0xFF ^^^ (1 <<< pos))) ||| ((v % 2) <<< pos)) % 256

/-- Assignment to a bit-field of a register of the register file. -/
def Regs.setBits (s : Regs) (r : Reg) (pos v : Nat) : Regs :=
  s.write r (writeBitField (s r) pos v)

/-- The function `Timer0_init(a_timerConfig)`. -/
def Timer0_init (c : Timer0_Config) (s : Regs) : Regs :=
  -- Set initial timer count
  let s := s.write .TCNT0 (c.intialCount % 256)
  -- Set clock source and prescaler
  let s := s.write .TCCR0 ((s .TCCR0 &&& (0xFFFF ^^^ TIMER0_CS_BITMASK)) % 256)
  let s := s.write .TCCR0 ((s .TCCR0 ||| (c.clockSource &&& TIMER0_CS_BITMASK)) % 256)
  -- Configure the timer mode
  if c.mode = TIMER0_MODE_FAST_PWM then
    let s := s.setBits .TCCR0 TCCR0_wgm00 LOGIC_HIGH
    let s := s.setBits .TCCR0 TCCR0_wgm01 LOGIC_HIGH
    let s := s.setBits .TCCR0 TCCR0_com00 (GET_BIT c.compareOutputMode TIMER_COMP_OUT_MODE_BIT_0)
    let s := s.setBits .TCCR0 TCCR0_com01 (GET_BIT c.compareOutputMode TIMER_COMP_OUT_MODE_BIT_1)
    s.write .OCR0 (c.tick % 256)
  else if c.mode = TIMER0_MODE_CTC then
    let s := s.setBits .TCCR0 TCCR0_foc0 LOGIC_HIGH
    let s := s.setBits .TCCR0 TCCR0_wgm00 LOGIC_LOW
    let s := s.setBits .TCCR0 TCCR0_wgm01 LOGIC_HIGH
    let s := s.setBits .TCCR0 TCCR0_com00 (GET_BIT c.compareOutputMode TIMER_COMP_OUT_MODE_BIT_0)
    let s := s.setBits .TCCR0 TCCR0_com01 (GET_BIT c.compareOutputMode TIMER_COMP_OUT_MODE_BIT_1)
    let s :=
      if c.interrupt ≠ 0 then
        let s := s.setBits .TIMSK TIMSK_ocie0 LOGIC_HIGH
        s.setBits .TIMSK TIMSK_toie0 LOGIC_LOW
      else s
    s.write .OCR0 (c.tick % 256)
  else if c.mode = TIMER0_MODE_NORMAL then
    let s := s.setBits .TCCR0 TCCR0_foc0 LOGIC_HIGH
    let s := s.setBits .TCCR0 TCCR0_wgm00 LOGIC_LOW
    let s := s.setBits .TCCR0 TCCR0_wgm01 LOGIC_LOW
    let s := s.setBits .TCCR0 TCCR0_com00 LOGIC_LOW
    let s := s.setBits .TCCR0 TCCR0_com01 LOGIC_LOW
    if c.interrupt ≠ 0 then
      let s := s.setBits .TIMSK TIMSK_toie0 LOGIC_HIGH
      s.setBits .TIMSK TIMSK_ocie0 LOGIC_LOW
    else s
  else s

/-- The function `Timer0_setDutyCycle(a_duty)`. -/
def Timer0_setDutyCycle (a_duty : Nat) (s : Regs) : Regs :=
  s.write .OCR0 (a_duty % 256)

/-! ### The callback slot of mcal/timer_0.c -/

/-- The machine as the Timer0 interrupt handlers see it: the static pointer
`PTR2_Timer0_CallBack`, where `none` is `NULL_PTR`, and the rest of the machine
state. `F` is the type of the function pointers. -/
structure Timer0_Machine (F σ : Type) where
  PTR2_Timer0_CallBack : Option F
  rest : σ

/-- The machine at program start: the static initialiser of
`PTR2_Timer0_CallBack` is `NULL_PTR`. -/
def Timer0_Machine.start {F σ : Type} (rest : σ) : Timer0_Machine F σ :=
  { PTR2_Timer0_CallBack := none, rest := rest }

/-- The function `Timer0_setCallback(a_ptr2func)`. -/
def Timer0_setCallback {F σ : Type} (a_ptr2func : Option F) (m : Timer0_Machine F σ) :
    Timer0_Machine F σ :=
  { m with PTR2_Timer0_CallBack := a_ptr2func }

/-- The handler `ISR(TIMER0_COMP_vect)`; `call f` is the effect on the machine
of calling the function that the pointer `f` names. -/
def ISR_TIMER0_COMP_vect {F σ : Type}
    (call : F → Timer0_Machine F σ → Timer0_Machine F σ) (m : Timer0_Machine F σ) :
    Timer0_Machine F σ :=
  match m.PTR2_Timer0_CallBack with
  | none => m
  | some f => call f m

/-- The handler `ISR(TIMER0_OVF_vect)`. -/
def ISR_TIMER0_OVF_vect {F σ : Type}
    (call : F → Timer0_Machine F σ → Timer0_Machine F σ) (m : Timer0_Machine F σ) :
    Timer0_Machine F σ :=
  match m.PTR2_Timer0_CallBack with
  | none => m
  | some f => call f m

/-- A call through a function pointer that does nothing but record the pointer
in a log of calls, the log being the rest of the machine. -/
def recordCall {F : Type} (f : F) (m : Timer0_Machine F (List F)) : Timer0_Machine F (List F) :=
  { m with rest := m.rest ++ [f] }

/-! ## The `int` of the target and the macro `MAP` -/

/-- Least and greatest value of the 16-bit `int` of the AVR target. -/
def INT_MIN : Int := -32768
def INT_MAX : Int := 32767

/-- The value of an `int` operation whose mathematical result is `v`: `none`
when `v` does not fit the 16-bit `int`, where C leaves the behaviour undefined. -/
def int_value (v : Int) : Option Int :=
  if INT_MIN ≤ v ∧ v ≤ INT_MAX then some v else none

/-- Conversion of an `int` to `uint8`. -/
def uint8_of_int (v : Int) : Nat := (v % 256).toNat

/-- Conversion of an `int` to `uint16`. -/
def uint16_of_int (v : Int) : Nat := (v % 65536).toNat

/-- The cast `(int)` of a `uint16`. -/
def int_of_uint16 (v : Nat) : Int :=
  if v % 65536 < 32768 then ((v % 65536 : Nat) : Int) else ((v % 65536 : Nat) : Int) - 65536

/-- The macro `MAP(X, IN_MIN, IN_MAX, OUT_MIN, OUT_MAX)` on `int` operands:
`((X) - (IN_MIN)) * ((OUT_MAX) - (OUT_MIN)) / ((IN_MAX) - (IN_MIN)) + (OUT_MIN)`,
the division truncating toward zero. -/
def MAP (X IN_MIN IN_MAX OUT_MIN OUT_MAX : Int) : Option Int := do
  let x ← int_value (X - IN_MIN)
  let outRange ← int_value (OUT_MAX - OUT_MIN)
  let prod ← int_value (x * outRange)
  let inRange ← int_value (IN_MAX - IN_MIN)
  if inRange = 0 then none
  else do
    let q ← int_value (Int.tdiv prod inRange)
    int_value (q + OUT_MIN)

/-! ## hal/ldr.c -/

/-- The function `LDR_getLightIntensity()`, as a function of the reading
`ADC_readChannel(0)` hands back; the result is a `uint16`. -/
def LDR_getLightIntensity (ADC_value : Nat) : Option Nat := do
  let l_val := ADC_value % 65536
  let l_inten ← MAP (int_of_uint16 l_val) 0 200 0 100
  some (uint16_of_int l_inten)

/-! ## hal/dcMotor.h and hal/dcMotor.c -/

def DCMOTOR_IN_1 : Nat := GPIO_PINS_ARR.GPIO_PB0.val
def DCMOTOR_IN_2 : Nat := GPIO_PINS_ARR.GPIO_PB1.val
def DCMOTOR_E1 : Nat := GPIO_PINS_ARR.GPIO_PB3.val

/-- The enum `DCMOTOR_STATE`. -/
def CW : Nat := 0
def ACW : Nat := 1
def STOP : Nat := 2

/-- The function `DcMotor_rotate(a_state, a_speed)`. -/
def DcMotor_rotate (a_state a_speed : Nat) (s : Regs) : Option Regs := do
  let s ←
    if a_state = CW then do
      let s ← GPIO_ARR_setPinState DCMOTOR_IN_1 LOGIC_HIGH s
      GPIO_ARR_setPinState DCMOTOR_IN_2 LOGIC_LOW s
    else if a_state = ACW then do
      let s ← GPIO_ARR_setPinState DCMOTOR_IN_2 LOGIC_HIGH s
      GPIO_ARR_setPinState DCMOTOR_IN_1 LOGIC_LOW s
    else if a_state = STOP then do
      let s ← GPIO_ARR_setPinState DCMOTOR_IN_1 LOGIC_LOW s
      GPIO_ARR_setPinState DCMOTOR_IN_2 LOGIC_LOW s
    else some s
  let l_duty ← (MAP (a_speed : Int) 0 100 0 255).map uint8_of_int
  some (Timer0_setDutyCycle l_duty s)

/-! ## mcal/gpio.c: the port-level write used by the LCD driver -/

/-- The function `GPIO_writePort(port_num, value)`. -/
def GPIO_writePort (port_num value : Nat) (s : Regs) : Regs :=
  if port_num ≥ NUM_OF_PORTS then s
  else if port_num = PORTA_ID then s.write .PORTA (value % 256)
  else if port_num = PORTB_ID then s.write .PORTB (value % 256)
  else if port_num = PORTC_ID then s.write .PORTC (value % 256)
  else if port_num = PORTD_ID then s.write .PORTD (value % 256)
  else s

/-! ## hal/lcd.h and hal/lcd.c -/

def LCD_RS : Nat := GPIO_PINS_ARR.GPIO_PD0.val
def LCD_E : Nat := GPIO_PINS_ARR.GPIO_PD1.val
def LCD_DATA_PORT : Nat := PORTC_ID
def LCD_COLUMNS : Nat := 16
def LCD_MAX_COLUMNS_INDEX : Nat := 15

/-- The enum `LCD_ERROR`. -/
def SUCSSES : Nat := 0
def EXCEEDMAXCOLUMNS : Nat := 1

/-- One byte handed to the display: by `LCD_sendCommand` or by `LCD_sendChar`. -/
inductive LCD_Transfer
  | command (byte : Nat)
  | data (byte : Nat)
  deriving DecidableEq, Repr

/-- The registers together with the record, oldest first, of the calls of
`LCD_sendCommand` and `LCD_sendChar` made so far. -/
structure LCD_World where
  regs : Regs
  transfers : List LCD_Transfer

/-- The function `LCD_sendCommand(a_lcdCommand)`; the delays change no state. -/
def LCD_sendCommand (a_lcdCommand : Nat) (w : LCD_World) : Option LCD_World := do
  let r ← GPIO_ARR_setPinState LCD_RS LOW w.regs
  let r ← GPIO_ARR_setPinState LCD_E HIGH r
  let r := GPIO_writePort LCD_DATA_PORT a_lcdCommand r
  let r ← GPIO_ARR_setPinState LCD_E LOW r
  some { regs := r, transfers := w.transfers ++ [.command (a_lcdCommand % 256)] }

/-- The function `LCD_sendChar(a_lcdChar)`; the delays change no state. -/
def LCD_sendChar (a_lcdChar : Nat) (w : LCD_World) : Option LCD_World := do
  let r ← GPIO_ARR_setPinState LCD_RS HIGH w.regs
  let r ← GPIO_ARR_setPinState LCD_E HIGH r
  let r := GPIO_writePort LCD_DATA_PORT a_lcdChar r
  let r ← GPIO_ARR_setPinState LCD_E LOW r
  some { regs := r, transfers := w.transfers ++ [.data (a_lcdChar % 256)] }

/-- The `while` loop of `LCD_displayString`. The list holds the bytes at
`a_lcdString[i]`, `a_lcdString[i + 1]`, ...; it yields the value of `i` on
leaving the loop, and `none` if it runs past the end of the bytes without
meeting a NUL. -/
def LCD_displayString_loop : List Nat → Nat → LCD_World → Option (Nat × LCD_World)
  | [], _, _ => none
  | c :: rest, i, w =>
    if c = 0 then some (i, w)
    else do
      let w ← LCD_sendChar c w
      if i = LCD_MAX_COLUMNS_INDEX then some (i, w)
      else LCD_displayString_loop rest (i + 1) w

/-- The function `LCD_displayString(a_lcdString)`, on the bytes that start at
`a_lcdString`; the result is the status and the world after the call. -/
def LCD_displayString (a_lcdString : List Nat) (w : LCD_World) : Option (Nat × LCD_World) := do
  let (i, w) ← LCD_displayString_loop a_lcdString 0 w
  some (if i < LCD_COLUMNS then SUCSSES else EXCEEDMAXCOLUMNS, w)

/-! ## common/common_macros.h: `TOGGLE_BIT`, and the port-level driver of mcal/gpio.c

The pin arguments of the port-level functions are bit numbers 0..7; for a bit
number of 15 or more the shift `1 << BIT` has no defined value in C, and the
definitions below then give the value of the macro on natural numbers. -/

/-- The macro `TOGGLE_BIT(REG, BIT)`: `REG ^= (1 << BIT)`, stored into a byte. -/
def TOGGLE_BIT (REG BIT : Nat) : Nat := (REG ^^^ (1 <<< BIT)) % 256

/-- The function `GPIO_setupPortDirection(port_num, direction)`. -/
def GPIO_setupPortDirection (port_num direction : Nat) (s : Regs) : Regs :=
  if port_num ≥ NUM_OF_PORTS then s
  else if port_num = PORTA_ID then s.write .DDRA (direction % 256)
  else if port_num = PORTB_ID then s.write .DDRB (direction % 256)
  else if port_num = PORTC_ID then s.write .DDRC (direction % 256)
  else if port_num = PORTD_ID then s.write .DDRD (direction % 256)
  else s

/-- The function `GPIO_setupPinDirection(a_port, a_pin, a_state)`. -/
def GPIO_setupPinDirection (a_port a_pin a_state : Nat) (s : Regs) : Regs :=
  if a_port = PORTA_ID then
    if a_state = PIN_INPUT then s.write .DDRA (CLEAR_BIT (s .DDRA) a_pin)
    else if a_state = PIN_OUTPUT then s.write .DDRA (SET_BIT (s .DDRA) a_pin)
    else if a_state = PIN_INPUT_PULLUP then
      let s := s.write .DDRA (CLEAR_BIT (s .DDRA) a_pin)
      s.write .PORTA (SET_BIT (s .PORTA) a_pin)
    else s
  else if a_port = PORTB_ID then
    if a_state = PIN_INPUT then s.write .DDRB (CLEAR_BIT (s .DDRB) a_pin)
    else if a_state = PIN_OUTPUT then s.write .DDRB (SET_BIT (s .DDRB) a_pin)
    else if a_state = PIN_INPUT_PULLUP then
      let s := s.write .DDRB (CLEAR_BIT (s .DDRB) a_pin)
      s.write .PORTB (SET_BIT (s .PORTB) a_pin)
    else s
  else if a_port = PORTC_ID then
    if a_state = PIN_INPUT then s.write .DDRC (CLEAR_BIT (s .DDRC) a_pin)
    else if a_state = PIN_OUTPUT then s.write .DDRC (SET_BIT (s .DDRC) a_pin)
    else if a_state = PIN_INPUT_PULLUP then
      let s := s.write .DDRC (CLEAR_BIT (s .DDRC) a_pin)
      s.write .PORTC (SET_BIT (s .PORTC) a_pin)
    else s
  else if a_port = PORTD_ID then
    if a_state = PIN_INPUT then s.write .DDRD (CLEAR_BIT (s .DDRD) a_pin)
    else if a_state = PIN_OUTPUT then s.write .DDRD (SET_BIT (s .DDRD) a_pin)
    else if a_state = PIN_INPUT_PULLUP then
      let s := s.write .DDRD (CLEAR_BIT (s .DDRD) a_pin)
      s.write .PORTD (SET_BIT (s .PORTD) a_pin)
    else s
  else s

/-- The function `GPIO_writePin(a_port, a_pin, a_state)`. -/
def GPIO_writePin (a_port a_pin a_state : Nat) (s : Regs) : Regs :=
  if a_port = PORTA_ID then
    if a_state = LOW then s.write .PORTA (CLEAR_BIT (s .PORTA) a_pin)
    else s.write .PORTA (SET_BIT (s .PORTA) a_pin)
  else if a_port = PORTB_ID then
    if a_state = LOW then s.write .PORTB (CLEAR_BIT (s .PORTB) a_pin)
    else s.write .PORTB (SET_BIT (s .PORTB) a_pin)
  else if a_port = PORTC_ID then
    if a_state = LOW then s.write .PORTC (CLEAR_BIT (s .PORTC) a_pin)
    else s.write .PORTC (SET_BIT (s .PORTC) a_pin)
  else if a_port = PORTD_ID then
    if a_state = LOW then s.write .PORTD (CLEAR_BIT (s .PORTD) a_pin)
    else s.write .PORTD (SET_BIT (s .PORTD) a_pin)
  else s

/-- The function `GPIO_tooglePin(a_port, pin)`. -/
def GPIO_tooglePin (a_port pin : Nat) (s : Regs) : Regs :=
  if a_port = PORTA_ID then s.write .PORTA (TOGGLE_BIT (s .PORTA) pin)
  else if a_port = PORTB_ID then s.write .PORTB (TOGGLE_BIT (s .PORTB) pin)
  else if a_port = PORTC_ID then s.write .PORTC (TOGGLE_BIT (s .PORTC) pin)
  else if a_port = PORTD_ID then s.write .PORTD (TOGGLE_BIT (s .PORTD) pin)
  else s

/-- The function `GPIO_readPin(a_port, pin)`; the result is a `uint8`, and the
register file is handed back as it came. -/
def GPIO_readPin (a_port pin : Nat) (s : Regs) : Nat × Regs :=
  if a_port = PORTA_ID then (GET_BIT (s .PINA) pin % 256, s)
  else if a_port = PORTB_ID then (GET_BIT (s .PINB) pin % 256, s)
  else if a_port = PORTC_ID then (GET_BIT (s .PINC) pin % 256, s)
  else if a_port = PORTD_ID then (GET_BIT (s .PIND) pin % 256, s)
  else (0, s)

/-! ## hal/dcMotor.c: the `switch` statement of `DcMotor_rotate` -/

/-- The `switch (a_state)` statement with which `DcMotor_rotate` begins, before
the duty is computed. -/
def DcMotor_rotate_switch (a_state : Nat) (s : Regs) : Option Regs :=
  if a_state = CW then do
    let s ← GPIO_ARR_setPinState DCMOTOR_IN_1 LOGIC_HIGH s
    GPIO_ARR_setPinState DCMOTOR_IN_2 LOGIC_LOW s
  else if a_state = ACW then do
    let s ← GPIO_ARR_setPinState DCMOTOR_IN_2 LOGIC_HIGH s
    GPIO_ARR_setPinState DCMOTOR_IN_1 LOGIC_LOW s
  else if a_state = STOP then do
    let s ← GPIO_ARR_setPinState DCMOTOR_IN_1 LOGIC_LOW s
    GPIO_ARR_setPinState DCMOTOR_IN_2 LOGIC_LOW s
  else some s

/-! ## hal/led.h, hal/led.c, hal/buzzer.h and hal/buzzer.c -/

/-- The array `LED_pins`. -/
def LED_pins : List Nat :=
  [GPIO_PINS_ARR.GPIO_PB5.val, GPIO_PINS_ARR.GPIO_PB6.val, GPIO_PINS_ARR.GPIO_PB7.val]

/-- The enum `LED_ID`. -/
def LED_BLUE_1 : Nat := 0
def LED_GREEN_2 : Nat := 1
def LED_RED_3 : Nat := 2

/-- The setting of the compile-time switch in led.h, which defines
`LED_POSTIVE_LOGIC`. -/
def LED_POSTIVE_LOGIC : Bool := true

/-- The function `LED_on(a_ledid)`; `positive` tells whether `LED_POSTIVE_LOGIC`
is defined. A read of `LED_pins` outside its three entries has no defined
result. -/
def LED_on (positive : Bool) (a_ledid : Nat) (s : Regs) : Option Regs := do
  let pin ← LED_pins[a_ledid]?
  if positive then GPIO_ARR_setPinState pin LOGIC_HIGH s
  else GPIO_ARR_setPinState pin LOGIC_LOW s

/-- The function `LED_off(a_ledid)`. -/
def LED_off (positive : Bool) (a_ledid : Nat) (s : Regs) : Option Regs := do
  let pin ← LED_pins[a_ledid]?
  if positive then GPIO_ARR_setPinState pin LOGIC_LOW s
  else GPIO_ARR_setPinState pin LOGIC_HIGH s

def BUZZER_PIN : Nat := GPIO_PINS_ARR.GPIO_PD3.val

/-- The function `Buzzer_on()`; `positive` tells whether `BUZZER_POSTIVE_LOGIC`
is defined. -/
def Buzzer_on (positive : Bool) (s : Regs) : Option Regs :=
  if positive then GPIO_ARR_setPinState BUZZER_PIN LOGIC_HIGH s
  else GPIO_ARR_setPinState BUZZER_PIN LOGIC_LOW s

/-- The function `Buzzer_off()`. -/
def Buzzer_off (positive : Bool) (s : Regs) : Option Regs :=
  if positive then GPIO_ARR_setPinState BUZZER_PIN LOGIC_LOW s
  else GPIO_ARR_setPinState BUZZER_PIN LOGIC_HIGH s

/-! ## hal/lcd.c: cursor addressing -/

def LCD_SET_CURSOR_LOCATION : Nat := 0x80
def LCD_ROW_1_OFFSET : Nat := 0x40
def LCD_ROW_2_OFFSET : Nat := 0x10
def LCD_ROW_3_OFFSET : Nat := 0x50

/-- The function `LCD_moveCursor(a_lcdRow, a_lcdCol)`. For a row other than
0..3 the local `lcd_memory_address` is used without having been assigned:
no defined result. -/
def LCD_moveCursor (a_lcdRow a_lcdCol : Nat) (w : LCD_World) : Option LCD_World := do
  let lcd_memory_address ←
    if a_lcdRow = 0 then some (a_lcdCol % 256)
    else if a_lcdRow = 1 then some ((a_lcdCol + LCD_ROW_1_OFFSET) % 256)
    else if a_lcdRow = 2 then some ((a_lcdCol + LCD_ROW_2_OFFSET) % 256)
    else if a_lcdRow = 3 then some ((a_lcdCol + LCD_ROW_3_OFFSET) % 256)
    else none
  LCD_sendCommand (lcd_memory_address ||| LCD_SET_CURSOR_LOCATION) w

/-! ## hal/pushbutton.h and hal/pushbutton.c -/

/-- The struct `pushbutton`. -/
structure pushbutton where
  pin : Nat
  state : Nat
  pullup : Nat
  debounce_time : Nat
  deriving DecidableEq, Repr

/-- The function `Pushbutton_init(a_button)`. -/
def Pushbutton_init (a_button : pushbutton) (s : Regs) : Option (pushbutton × Regs) := do
  let s ←
    if a_button.pullup = PIN_INPUT_PULLUP then
      GPIO_ARR_setPinDirection a_button.pin PIN_INPUT_PULLUP s
    else
      GPIO_ARR_setPinDirection a_button.pin PIN_INPUT s
  some ({ a_button with state := 0 }, s)

/-- The function `Pushbutton_pressed(a_button)`: the value returned, the
button structure and the register file after the call. -/
def Pushbutton_pressed (a_button : pushbutton) (s : Regs) :
    Option (Nat × pushbutton × Regs) := do
  let l_val := 0
  let (reading, s) ← GPIO_ARR_readPin a_button.pin s
  if reading = 0 then
    if a_button.state = 0 then some (1, { a_button with state := 1 }, s)
    else some (l_val, a_button, s)
  else some (0, { a_button with state := 0 }, s)

/-- Successive calls of `Pushbutton_pressed`, one on each register file of the
list in turn (the input registers are driven from outside between the calls):
the values returned, in order, and the button structure after the last call. -/
def Pushbutton_poll : pushbutton → List Regs → Option (List Nat × pushbutton)
  | b, [] => some ([], b)
  | b, s :: rest => do
    let (v, b1, _) ← Pushbutton_pressed b s
    let (vs, b2) ← Pushbutton_poll b1 rest
    some (v :: vs, b2)

/-- The level that `GPIO_ARR_readPin` reads on the pin of a button: `true` for
high. -/
def Pushbutton_level (b : pushbutton) (s : Regs) : Bool :=
  match GPIO_ARR_readPin b.pin s with
  | some (reading, _) => reading != 0
  | none => false

/-- Number of places in a sequence of levels (`true` for high) where a high
level is directly followed by a low level. -/
def highToLowTransitions : List Bool → Nat
  | [] => 0
  | [_] => 0
  | a :: b :: rest => (if a && !b then 1 else 0) + highToLowTransitions (b :: rest)

/-! ## app/main.c: the light part of the loop -/

/-- The part of one iteration of the loop of `main` that deals with light:
`lightIntensity = LDR_getLightIntensity();` stored into a `uint8`, and the
`if` chain that switches the three LEDs. The display calls that stand between
the two write to the display pins only and are left out. -/
def main_light (ADC_value : Nat) (s : Regs) : Option Regs := do
  let intensity ← LDR_getLightIntensity ADC_value
  let lightIntensity := intensity % 256
  if lightIntensity ≤ 15 then do
    let s ← LED_on LED_POSTIVE_LOGIC LED_BLUE_1 s
    let s ← LED_on LED_POSTIVE_LOGIC LED_GREEN_2 s
    LED_on LED_POSTIVE_LOGIC LED_RED_3 s
  else if lightIntensity ≥ 16 ∧ lightIntensity ≤ 50 then do
    let s ← LED_off LED_POSTIVE_LOGIC LED_BLUE_1 s
    let s ← LED_on LED_POSTIVE_LOGIC LED_GREEN_2 s
    LED_on LED_POSTIVE_LOGIC LED_RED_3 s
  else if lightIntensity ≥ 51 ∧ lightIntensity ≤ 70 then do
    let s ← LED_off LED_POSTIVE_LOGIC LED_BLUE_1 s
    let s ← LED_off LED_POSTIVE_LOGIC LED_GREEN_2 s
    LED_on LED_POSTIVE_LOGIC LED_RED_3 s
  else do
    let s ← LED_off LED_POSTIVE_LOGIC LED_BLUE_1 s
    let s ← LED_off LED_POSTIVE_LOGIC LED_GREEN_2 s
    LED_off LED_POSTIVE_LOGIC LED_RED_3 s

/-- Number of LEDs that are lit under positive logic: the bits 5, 6 and 7 of
PORTB that are high. -/
def LEDs_lit (s : Regs) : Nat :=
  ((s .PORTB).testBit 5).toNat + ((s .PORTB).testBit 6).toNat + ((s .PORTB).testBit 7).toNat

/-- An all-zero register file, for concrete evaluations. -/
def Regs.zero : Regs := fun _ => 0

/-! ## Bit-level lemmas -/

theorem testBit_SET_BIT (r b j : Nat) (hj : j < 8) :
    (SET_BIT r b).testBit j = (decide (j = b) || r.testBit j) := by
  have h256 : (256 : Nat) = 2 ^ 8 := by norm_num
  unfold SET_BIT
  rw [h256, Nat.testBit_mod_two_pow, Nat.testBit_or, Nat.one_shiftLeft, Nat.testBit_two_pow]
  simp [hj, eq_comm, Bool.or_comm]

theorem testBit_CLEAR_BIT (r b j : Nat) (hj : j < 8) :
    (CLEAR_BIT r b).testBit j = (!decide (j = b) && r.testBit j) := by
  have h256 : (256 : Nat) = 2 ^ 8 := by norm_num
  have hFFFF : (0xFFFF : Nat) = 2 ^ 16 - 1 := by norm_num
  have hj16 : j < 16 := by omega
  unfold CLEAR_BIT
  rw [h256, Nat.testBit_mod_two_pow, Nat.testBit_and, Nat.testBit_xor, hFFFF,
    Nat.testBit_two_pow_sub_one, Nat.one_shiftLeft, Nat.testBit_two_pow]
  simp [hj, hj16, eq_comm, Bool.and_comm]

theorem GET_BIT_eq_testBit (r b : Nat) : GET_BIT r b = (r.testBit b).toNat := by
  unfold GET_BIT
  rw [Nat.one_shiftLeft, Nat.and_two_pow, Nat.shiftRight_eq_div_pow,
    Nat.mul_div_cancel _ (Nat.two_pow_pos b)]

theorem GET_BIT_le_one (r b : Nat) : GET_BIT r b ≤ 1 := by
  rw [GET_BIT_eq_testBit]
  cases r.testBit b <;> simp

/-! ## The pin table -/

theorem pgm_read_ioPins_of_lt (id : Nat) (h : id < 32) :
    ∃ p, portOfId (id / 8) = some p ∧ pgm_read_ioPins id = some (GPIO_PIN p (id % 8)) := by
  interval_cases id <;> exact ⟨_, rfl, rfl⟩

theorem PortName.DDR_ne_PORT (p : PortName) : p.DDR ≠ p.PORT := by
  cases p <;> decide

theorem Regs.write_same (s : Regs) (r : Reg) (v : Nat) : s.write r v r = v := by
  simp [Regs.write]

theorem Regs.write_other (s : Regs) (r r2 : Reg) (v : Nat) (h : r2 ≠ r) :
    s.write r v r2 = s r2 := by
  simp [Regs.write, Function.update_noteq h]

/-! ## Indexed GPIO driver -/

theorem GPIO_ARR_setPinDirection_of_entry (id st : Nat) (s : Regs) (p : PortName) (b : Nat)
    (hg : ¬ id > NUM_OF_PINS) (he : pgm_read_ioPins id = some (GPIO_PIN p b)) :
    GPIO_ARR_setPinDirection id st s = some
      (if st = PIN_INPUT then s.write p.DDR (CLEAR_BIT (s p.DDR) b)
       else if st = PIN_OUTPUT then s.write p.DDR (SET_BIT (s p.DDR) b)
       else if st = PIN_INPUT_PULLUP then
         (s.write p.DDR (CLEAR_BIT (s p.DDR) b)).write p.PORT
           (SET_BIT ((s.write p.DDR (CLEAR_BIT (s p.DDR) b)) p.PORT) b)
       else s) := by
  simp only [GPIO_ARR_setPinDirection, hg, he, GPIO_PIN, if_false, Option.map_some',
    Option.bind_eq_bind, Option.some_bind]
  split_ifs <;> rfl

theorem GPIO_ARR_setPinState_of_entry (id v : Nat) (s : Regs) (p : PortName) (b : Nat)
    (hg : ¬ id > NUM_OF_PINS) (he : pgm_read_ioPins id = some (GPIO_PIN p b)) :
    GPIO_ARR_setPinState id v s = some
      (if v = HIGH then s.write p.PORT (SET_BIT (s p.PORT) b)
       else s.write p.PORT (CLEAR_BIT (s p.PORT) b)) := by
  simp only [GPIO_ARR_setPinState, hg, he, GPIO_PIN, if_false, Option.map_some',
    Option.bind_eq_bind, Option.some_bind]
  split_ifs <;> rfl

theorem GPIO_ARR_readPin_of_entry (id : Nat) (s : Regs) (p : PortName) (b : Nat)
    (hg : ¬ id > NUM_OF_PINS) (he : pgm_read_ioPins id = some (GPIO_PIN p b)) :
    GPIO_ARR_readPin id s = some (GET_BIT (s p.PIN) b % 256, s) := by
  simp only [GPIO_ARR_readPin, hg, he, GPIO_PIN, if_false, Option.map_some',
    Option.bind_eq_bind, Option.some_bind]

/-- Identifiers above 32 are rejected by the guard `a_pin > NUM_OF_PINS`: the
two writers return the register file as it was and the reader returns 0. -/
theorem GPIO_ARR_above_32_noop (id x : Nat) (s : Regs) (h : 32 < id) :
    GPIO_ARR_setPinDirection id x s = some s ∧ GPIO_ARR_setPinState id x s = some s ∧
      GPIO_ARR_readPin id s = some (0, s) := by
  have hg : id > NUM_OF_PINS := h
  simp [GPIO_ARR_setPinDirection, GPIO_ARR_setPinState, GPIO_ARR_readPin, hg]

/-- C1 (failing input): the identifier 32 passes the guard `a_pin > NUM_OF_PINS`
although the table `ioPins` has only the entries 0..31, so each of the three
indexed operations fetches entry 32, outside the table, and has no defined
result there instead of being a no-op. -/
theorem GPIO_ARR_id_32_reads_past_table (x : Nat) (s : Regs) :
    ioPins.length = 32 ∧ ¬ (32 > NUM_OF_PINS) ∧ pgm_read_ioPins 32 = none ∧
      GPIO_ARR_setPinDirection 32 x s = none ∧ GPIO_ARR_setPinState 32 x s = none ∧
      GPIO_ARR_readPin 32 s = none := by
  refine ⟨rfl, by decide, rfl, ?_, ?_, ?_⟩ <;> rfl

/-- C2: for every identifier below 32, entry `id` of `ioPins` holds the PIN,
PORT and DDR registers of port number `id / 8` and the bit number `id % 8`; an
enumerator of `GPIO_PINS_ARR` is named after that port and bit and has the
value `id`, and every enumerator has the value port * 8 + bit. -/
theorem ioPins_entry_of_identifier (id : Nat) (h : id < 32) :
    (∃ p, portOfId (id / 8) = some p ∧
      pgm_read_ioPins id =
        some { pin_addr := p.PIN, port_addr := p.PORT, ddr_addr := p.DDR, pin := id % 8 }) ∧
    (∃ e : GPIO_PINS_ARR, e.portId = id / 8 ∧ e.bit = id % 8 ∧ e.val = id) ∧
    (∀ e : GPIO_PINS_ARR, e.val = e.portId * 8 + e.bit ∧ e.portId < 4 ∧ e.bit < 8) := by
  refine ⟨?_, ?_, ?_⟩
  · obtain ⟨p, hp, he⟩ := pgm_read_ioPins_of_lt id h
    exact ⟨p, hp, he⟩
  · interval_cases id <;> decide
  · intro e
    cases e <;> decide

theorem ioPins_entry_of_identifier_witness :
    13 < 32 ∧
    ((∃ p, portOfId (13 / 8) = some p ∧
      pgm_read_ioPins 13 =
        some { pin_addr := p.PIN, port_addr := p.PORT, ddr_addr := p.DDR, pin := 13 % 8 }) ∧
    (∃ e : GPIO_PINS_ARR, e.portId = 13 / 8 ∧ e.bit = 13 % 8 ∧ e.val = 13) ∧
    (∀ e : GPIO_PINS_ARR, e.val = e.portId * 8 + e.bit ∧ e.portId < 4 ∧ e.bit < 8)) :=
  ⟨by decide, ioPins_entry_of_identifier 13 (by decide)⟩

/-- C3: for every identifier below 32 and every register file,
`GPIO_ARR_setPinDirection(id, PIN_INPUT_PULLUP)` returns a register file in
which bit `id % 8` of the direction register of port `id / 8` is clear and bit
`id % 8` of its output register is set, the other seven bits of both registers
are as before, and every other register is as before. -/
theorem GPIO_ARR_setPinDirection_pullup (id : Nat) (s : Regs) (h : id < 32) :
    ∃ p s1, portOfId (id / 8) = some p ∧
      GPIO_ARR_setPinDirection id PIN_INPUT_PULLUP s = some s1 ∧
      (s1 p.DDR).testBit (id % 8) = false ∧
      (s1 p.PORT).testBit (id % 8) = true ∧
      (∀ j, j < 8 → j ≠ id % 8 →
        (s1 p.DDR).testBit j = (s p.DDR).testBit j ∧
        (s1 p.PORT).testBit j = (s p.PORT).testBit j) ∧
      (∀ r, r ≠ p.DDR → r ≠ p.PORT → s1 r = s r) := by
  obtain ⟨p, hp, he⟩ := pgm_read_ioPins_of_lt id h
  have hg : ¬ id > NUM_OF_PINS := by simp [NUM_OF_PINS]; omega
  have hb : id % 8 < 8 := Nat.mod_lt _ (by norm_num)
  have hne := p.DDR_ne_PORT
  refine ⟨p, (s.write p.DDR (CLEAR_BIT (s p.DDR) (id % 8))).write p.PORT
      (SET_BIT (s p.PORT) (id % 8)), hp, ?_, ?_, ?_, ?_, ?_⟩
  · rw [GPIO_ARR_setPinDirection_of_entry id _ s p _ hg he]
    simp [PIN_INPUT_PULLUP, PIN_INPUT, PIN_OUTPUT, Regs.write_other _ _ _ _ hne.symm]
  · rw [Regs.write_other _ _ _ _ hne, Regs.write_same, testBit_CLEAR_BIT _ _ _ hb]
    simp
  · rw [Regs.write_same, testBit_SET_BIT _ _ _ hb]
    simp
  · intro j hj hjb
    rw [Regs.write_other _ _ _ _ hne, Regs.write_same, Regs.write_same,
      testBit_CLEAR_BIT _ _ _ hj, testBit_SET_BIT _ _ _ hj]
    simp [hjb]
  · intro r h1 h2
    rw [Regs.write_other _ _ _ _ h2, Regs.write_other _ _ _ _ h1]

theorem GPIO_ARR_setPinDirection_pullup_witness :
    13 < 32 ∧ ∃ p s1, portOfId (13 / 8) = some p ∧
      GPIO_ARR_setPinDirection 13 PIN_INPUT_PULLUP (fun _ => 0xF0) = some s1 ∧
      (s1 p.DDR).testBit (13 % 8) = false ∧
      (s1 p.PORT).testBit (13 % 8) = true ∧
      (∀ j, j < 8 → j ≠ 13 % 8 →
        (s1 p.DDR).testBit j = ((fun _ => 0xF0 : Regs) p.DDR).testBit j ∧
        (s1 p.PORT).testBit j = ((fun _ => 0xF0 : Regs) p.PORT).testBit j) ∧
      (∀ r, r ≠ p.DDR → r ≠ p.PORT → s1 r = (fun _ => 0xF0 : Regs) r) :=
  ⟨by decide, GPIO_ARR_setPinDirection_pullup 13 (fun _ => 0xF0) (by decide)⟩

/-- C4: for every identifier below 32, `GPIO_ARR_setPinDirection(id, PIN_INPUT)`
clears and `GPIO_ARR_setPinDirection(id, PIN_OUTPUT)` sets bit `id % 8` of the
direction register of port `id / 8`; in both cases the other seven bits of
that register, the output register of the port and every other register are
as before. -/
theorem GPIO_ARR_setPinDirection_input_output (id : Nat) (s : Regs) (h : id < 32) :
    ∃ p sIn sOut, portOfId (id / 8) = some p ∧
      GPIO_ARR_setPinDirection id PIN_INPUT s = some sIn ∧
      GPIO_ARR_setPinDirection id PIN_OUTPUT s = some sOut ∧
      (sIn p.DDR).testBit (id % 8) = false ∧
      (sOut p.DDR).testBit (id % 8) = true ∧
      (∀ j, j < 8 → j ≠ id % 8 →
        (sIn p.DDR).testBit j = (s p.DDR).testBit j ∧
        (sOut p.DDR).testBit j = (s p.DDR).testBit j) ∧
      sIn p.PORT = s p.PORT ∧ sOut p.PORT = s p.PORT ∧
      (∀ r, r ≠ p.DDR → sIn r = s r ∧ sOut r = s r) := by
  obtain ⟨p, hp, he⟩ := pgm_read_ioPins_of_lt id h
  have hg : ¬ id > NUM_OF_PINS := by simp [NUM_OF_PINS]; omega
  have hb : id % 8 < 8 := Nat.mod_lt _ (by norm_num)
  have hne := p.DDR_ne_PORT
  refine ⟨p, s.write p.DDR (CLEAR_BIT (s p.DDR) (id % 8)),
    s.write p.DDR (SET_BIT (s p.DDR) (id % 8)), hp, ?_, ?_, ?_, ?_, ?_, ?_, ?_, ?_⟩
  · rw [GPIO_ARR_setPinDirection_of_entry id _ s p _ hg he]
    simp [PIN_INPUT]
  · rw [GPIO_ARR_setPinDirection_of_entry id _ s p _ hg he]
    simp [PIN_INPUT, PIN_OUTPUT]
  · rw [Regs.write_same, testBit_CLEAR_BIT _ _ _ hb]
    simp
  · rw [Regs.write_same, testBit_SET_BIT _ _ _ hb]
    simp
  · intro j hj hjb
    rw [Regs.write_same, Regs.write_same, testBit_CLEAR_BIT _ _ _ hj, testBit_SET_BIT _ _ _ hj]
    simp [hjb]
  · exact Regs.write_other _ _ _ _ hne.symm
  · exact Regs.write_other _ _ _ _ hne.symm
  · intro r hr
    exact ⟨Regs.write_other _ _ _ _ hr, Regs.write_other _ _ _ _ hr⟩

theorem GPIO_ARR_setPinDirection_input_output_witness :
    22 < 32 ∧ ∃ p sIn sOut, portOfId (22 / 8) = some p ∧
      GPIO_ARR_setPinDirection 22 PIN_INPUT (fun _ => 0x5A) = some sIn ∧
      GPIO_ARR_setPinDirection 22 PIN_OUTPUT (fun _ => 0x5A) = some sOut ∧
      (sIn p.DDR).testBit (22 % 8) = false ∧
      (sOut p.DDR).testBit (22 % 8) = true ∧
      (∀ j, j < 8 → j ≠ 22 % 8 →
        (sIn p.DDR).testBit j = ((fun _ => 0x5A : Regs) p.DDR).testBit j ∧
        (sOut p.DDR).testBit j = ((fun _ => 0x5A : Regs) p.DDR).testBit j) ∧
      sIn p.PORT = (fun _ => 0x5A : Regs) p.PORT ∧
      sOut p.PORT = (fun _ => 0x5A : Regs) p.PORT ∧
      (∀ r, r ≠ p.DDR → sIn r = (fun _ => 0x5A : Regs) r ∧ sOut r = (fun _ => 0x5A : Regs) r) :=
  ⟨by decide, GPIO_ARR_setPinDirection_input_output 22 (fun _ => 0x5A) (by decide)⟩

/-- C5: for every identifier below 32 and every value among LOW and HIGH,
`GPIO_ARR_setPinState(id, v)` makes bit `id % 8` of the output register of port
`id / 8` equal to `v`, and leaves the other seven bits of that register and
every other register as before. -/
theorem GPIO_ARR_setPinState_writes_bit (id v : Nat) (s : Regs) (h : id < 32)
    (hv : v = LOW ∨ v = HIGH) :
    ∃ p s1, portOfId (id / 8) = some p ∧
      GPIO_ARR_setPinState id v s = some s1 ∧
      ((s1 p.PORT).testBit (id % 8)).toNat = v ∧
      (∀ j, j < 8 → j ≠ id % 8 → (s1 p.PORT).testBit j = (s p.PORT).testBit j) ∧
      (∀ r, r ≠ p.PORT → s1 r = s r) := by
  obtain ⟨p, hp, he⟩ := pgm_read_ioPins_of_lt id h
  have hg : ¬ id > NUM_OF_PINS := by simp [NUM_OF_PINS]; omega
  have hb : id % 8 < 8 := Nat.mod_lt _ (by norm_num)
  rcases hv with hv | hv
  · subst hv
    refine ⟨p, s.write p.PORT (CLEAR_BIT (s p.PORT) (id % 8)), hp, ?_, ?_, ?_, ?_⟩
    · rw [GPIO_ARR_setPinState_of_entry id _ s p _ hg he]
      simp [LOW, HIGH]
    · rw [Regs.write_same, testBit_CLEAR_BIT _ _ _ hb]
      simp [LOW]
    · intro j hj hjb
      rw [Regs.write_same, testBit_CLEAR_BIT _ _ _ hj]
      simp [hjb]
    · intro r hr
      exact Regs.write_other _ _ _ _ hr
  · subst hv
    refine ⟨p, s.write p.PORT (SET_BIT (s p.PORT) (id % 8)), hp, ?_, ?_, ?_, ?_⟩
    · rw [GPIO_ARR_setPinState_of_entry id _ s p _ hg he]
      simp
    · rw [Regs.write_same, testBit_SET_BIT _ _ _ hb]
      simp [HIGH]
    · intro j hj hjb
      rw [Regs.write_same, testBit_SET_BIT _ _ _ hj]
      simp [hjb]
    · intro r hr
      exact Regs.write_other _ _ _ _ hr

theorem GPIO_ARR_setPinState_writes_bit_witness :
    31 < 32 ∧ (LOW = LOW ∨ LOW = HIGH) ∧ ∃ p s1, portOfId (31 / 8) = some p ∧
      GPIO_ARR_setPinState 31 LOW (fun _ => 0xFF) = some s1 ∧
      ((s1 p.PORT).testBit (31 % 8)).toNat = LOW ∧
      (∀ j, j < 8 → j ≠ 31 % 8 →
        (s1 p.PORT).testBit j = ((fun _ => 0xFF : Regs) p.PORT).testBit j) ∧
      (∀ r, r ≠ p.PORT → s1 r = (fun _ => 0xFF : Regs) r) :=
  ⟨by decide, Or.inl rfl,
    GPIO_ARR_setPinState_writes_bit 31 LOW (fun _ => 0xFF) (by decide) (Or.inl rfl)⟩

/-- C6: for every identifier below 32 and every register file,
`GPIO_ARR_readPin(id)` returns bit `id % 8` of the input register of port
`id / 8`, a value that is 0 or 1, and hands back the register file unchanged. -/
theorem GPIO_ARR_readPin_returns_bit (id : Nat) (s : Regs) (h : id < 32) :
    ∃ p v, portOfId (id / 8) = some p ∧
      GPIO_ARR_readPin id s = some (v, s) ∧
      v = ((s p.PIN).testBit (id % 8)).toNat ∧ (v = 0 ∨ v = 1) := by
  obtain ⟨p, hp, he⟩ := pgm_read_ioPins_of_lt id h
  have hg : ¬ id > NUM_OF_PINS := by simp [NUM_OF_PINS]; omega
  have hle := GET_BIT_le_one (s p.PIN) (id % 8)
  have hmod : GET_BIT (s p.PIN) (id % 8) % 256 = GET_BIT (s p.PIN) (id % 8) :=
    Nat.mod_eq_of_lt (by omega)
  refine ⟨p, GET_BIT (s p.PIN) (id % 8), hp, ?_, GET_BIT_eq_testBit _ _, by omega⟩
  rw [GPIO_ARR_readPin_of_entry id s p _ hg he, hmod]

theorem GPIO_ARR_readPin_returns_bit_witness :
    7 < 32 ∧ ∃ p v, portOfId (7 / 8) = some p ∧
      GPIO_ARR_readPin 7 (fun _ => 0x80) = some (v, (fun _ => 0x80)) ∧
      v = (((fun _ => 0x80 : Regs) p.PIN).testBit (7 % 8)).toNat ∧ (v = 0 ∨ v = 1) :=
  ⟨by decide, GPIO_ARR_readPin_returns_bit 7 (fun _ => 0x80) (by decide)⟩

/-! ## Bit-field lemmas -/

theorem testBit_writeBitField (reg pos v j : Nat) (hj : j < 8) :
    (writeBitField reg pos v).testBit j = if j = pos then v.testBit 0 else reg.testBit j := by
  have h256 : (256 : Nat) = 2 ^ 8 := by norm_num
  have hFF : (0xFF : Nat) = 2 ^ 8 - 1 := by norm_num
  have h2 : v % 2 = v % 2 ^ 1 := by norm_num
  unfold writeBitField
  rw [h256, Nat.testBit_mod_two_pow, Nat.testBit_or, Nat.testBit_and, Nat.testBit_xor, hFF,
    Nat.testBit_two_pow_sub_one, Nat.one_shiftLeft, Nat.testBit_two_pow, Nat.testBit_shiftLeft,
    h2, Nat.testBit_mod_two_pow]
  by_cases h : j = pos
  · subst h; simp [hj]
  · have : ¬ pos = j := fun e => h e.symm
    simp [hj, h, this]
    intro h1 h2
    omega

theorem testBit_one_zero : Nat.testBit 1 0 = true := by decide

theorem testBit_zero_GET_BIT (x k : Nat) : (GET_BIT x k).testBit 0 = x.testBit k := by
  rw [GET_BIT_eq_testBit, Nat.testBit_bool_to_nat]
  simp

theorem testBit_clockSelect (T cs j : Nat) (hj : j < 8) :
    ((((T &&& (0xFFFF ^^^ TIMER0_CS_BITMASK)) % 256) ||| (cs &&& TIMER0_CS_BITMASK)) % 256).testBit j
      = if j < 3 then cs.testBit j else T.testBit j := by
  have h256 : (256 : Nat) = 2 ^ 8 := by norm_num
  have hFFFF : (0xFFFF : Nat) = 2 ^ 16 - 1 := by norm_num
  have h7 : TIMER0_CS_BITMASK = 2 ^ 3 - 1 := by norm_num [TIMER0_CS_BITMASK]
  have hj16 : j < 16 := by omega
  rw [h256, Nat.testBit_mod_two_pow, Nat.testBit_or, Nat.testBit_mod_two_pow, Nat.testBit_and,
    Nat.testBit_and, Nat.testBit_xor, hFFFF, h7, Nat.testBit_two_pow_sub_one,
    Nat.testBit_two_pow_sub_one]
  by_cases h : j < 3 <;> simp [hj, hj16, h]

theorem mod_8_eq_of_testBit (x y : Nat) (h : ∀ j, j < 3 → x.testBit j = y.testBit j) :
    x % 8 = y % 8 := by
  have h8 : (8 : Nat) = 2 ^ 3 := by norm_num
  apply Nat.eq_of_testBit_eq
  intro i
  rw [h8, Nat.testBit_mod_two_pow, Nat.testBit_mod_two_pow]
  by_cases hi : i < 3
  · simp [hi, h i hi]
  · simp [hi]

theorem GET_BIT_and_3 (x k : Nat) (hk : k < 2) : GET_BIT (x &&& 3) k = GET_BIT x k := by
  have h3 : (3 : Nat) = 2 ^ 2 - 1 := by norm_num
  rw [GET_BIT_eq_testBit, GET_BIT_eq_testBit, Nat.testBit_and, h3, Nat.testBit_two_pow_sub_one]
  simp [hk]

theorem and_7_and_7 (x : Nat) : (x &&& 7) &&& TIMER0_CS_BITMASK = x &&& TIMER0_CS_BITMASK := by
  simp [TIMER0_CS_BITMASK, Nat.and_assoc]

theorem Timer0_init_TCCR0_low_bits (c : Timer0_Config) (s : Regs) (j : Nat) (hj : j < 3) :
    (Timer0_init c s .TCCR0).testBit j = c.clockSource.testBit j := by
  have hj8 : j < 8 := by omega
  have h3 : j ≠ 3 := by omega
  have h4 : j ≠ 4 := by omega
  have h5 : j ≠ 5 := by omega
  have h6 : j ≠ 6 := by omega
  have h7 : j ≠ 7 := by omega
  unfold Timer0_init
  split_ifs <;>
  simp [Regs.setBits, Regs.write, testBit_writeBitField, testBit_clockSelect, hj8, hj, h3, h4,
    h5, h6, h7, TCCR0_wgm00, TCCR0_wgm01, TCCR0_com00, TCCR0_com01, TCCR0_foc0]


/-! ## Timer0 driver -/

/-- C7: for every register file and every configuration whose mode is Normal,
CTC or FastPWM, after `Timer0_init` the bits WGM00 and WGM01 of TCCR0 encode
that mode: Normal gives 0, 0; CTC gives 0, 1; FastPWM gives 1, 1; the pattern
WGM00 = 1, WGM01 = 0 never results. -/
theorem Timer0_init_waveform_bits (c : Timer0_Config) (s : Regs)
    (hm : c.mode = TIMER0_MODE_NORMAL ∨ c.mode = TIMER0_MODE_CTC ∨
      c.mode = TIMER0_MODE_FAST_PWM) :
    (c.mode = TIMER0_MODE_NORMAL →
      (Timer0_init c s .TCCR0).testBit TCCR0_wgm00 = false ∧
      (Timer0_init c s .TCCR0).testBit TCCR0_wgm01 = false) ∧
    (c.mode = TIMER0_MODE_CTC →
      (Timer0_init c s .TCCR0).testBit TCCR0_wgm00 = false ∧
      (Timer0_init c s .TCCR0).testBit TCCR0_wgm01 = true) ∧
    (c.mode = TIMER0_MODE_FAST_PWM →
      (Timer0_init c s .TCCR0).testBit TCCR0_wgm00 = true ∧
      (Timer0_init c s .TCCR0).testBit TCCR0_wgm01 = true) ∧
    ¬ ((Timer0_init c s .TCCR0).testBit TCCR0_wgm00 = true ∧
      (Timer0_init c s .TCCR0).testBit TCCR0_wgm01 = false) := by
  rcases hm with h | h | h <;> by_cases hi : c.interrupt = 0 <;>
  simp [-Nat.testBit_zero, testBit_one_zero, Timer0_init, h, hi, Regs.setBits, Regs.write, testBit_writeBitField, TCCR0_wgm00,
    TCCR0_wgm01, TCCR0_com00, TCCR0_com01, TCCR0_foc0, LOGIC_HIGH, LOGIC_LOW,
    TIMER0_MODE_NORMAL, TIMER0_MODE_CTC, TIMER0_MODE_FAST_PWM]

theorem Timer0_init_waveform_bits_witness :
    ((Timer0_init ⟨TIMER0_MODE_NORMAL, 3, 2, 1, 200, 0⟩ (fun _ => 0xFF) .TCCR0).testBit
        TCCR0_wgm00 = false ∧
      (Timer0_init ⟨TIMER0_MODE_NORMAL, 3, 2, 1, 200, 0⟩ (fun _ => 0xFF) .TCCR0).testBit
        TCCR0_wgm01 = false) ∧
    ((Timer0_init ⟨TIMER0_MODE_CTC, 3, 2, 1, 200, 0⟩ (fun _ => 0xFF) .TCCR0).testBit
        TCCR0_wgm00 = false ∧
      (Timer0_init ⟨TIMER0_MODE_CTC, 3, 2, 1, 200, 0⟩ (fun _ => 0xFF) .TCCR0).testBit
        TCCR0_wgm01 = true) ∧
    ((Timer0_init ⟨TIMER0_MODE_FAST_PWM, 3, 2, 1, 200, 0⟩ Regs.zero .TCCR0).testBit
        TCCR0_wgm00 = true ∧
      (Timer0_init ⟨TIMER0_MODE_FAST_PWM, 3, 2, 1, 200, 0⟩ Regs.zero .TCCR0).testBit
        TCCR0_wgm01 = true) :=
  ⟨(Timer0_init_waveform_bits ⟨TIMER0_MODE_NORMAL, 3, 2, 1, 200, 0⟩ (fun _ => 0xFF)
      (Or.inl rfl)).1 rfl,
   (Timer0_init_waveform_bits ⟨TIMER0_MODE_CTC, 3, 2, 1, 200, 0⟩ (fun _ => 0xFF)
      (Or.inr (Or.inl rfl))).2.1 rfl,
   (Timer0_init_waveform_bits ⟨TIMER0_MODE_FAST_PWM, 3, 2, 1, 200, 0⟩ Regs.zero
      (Or.inr (Or.inr rfl))).2.2.1 rfl⟩

/-- C8: for every register file, after `Timer0_init` in CTC or FastPWM mode the
bits COM00 and COM01 of TCCR0 are bit 0 and bit 1 of `compareOutputMode`, and
after `Timer0_init` in Normal mode both are 0 whatever `compareOutputMode` is. -/
theorem Timer0_init_compare_output_bits (c : Timer0_Config) (s : Regs) :
    (c.mode = TIMER0_MODE_CTC ∨ c.mode = TIMER0_MODE_FAST_PWM →
      (Timer0_init c s .TCCR0).testBit TCCR0_com00 = c.compareOutputMode.testBit 0 ∧
      (Timer0_init c s .TCCR0).testBit TCCR0_com01 = c.compareOutputMode.testBit 1) ∧
    (c.mode = TIMER0_MODE_NORMAL →
      (Timer0_init c s .TCCR0).testBit TCCR0_com00 = false ∧
      (Timer0_init c s .TCCR0).testBit TCCR0_com01 = false) := by
  refine ⟨?_, ?_⟩
  · rintro (h | h) <;> by_cases hi : c.interrupt = 0 <;>
    simp [-Nat.testBit_zero, testBit_one_zero, Timer0_init, h, hi, Regs.setBits, Regs.write, testBit_writeBitField,
      testBit_zero_GET_BIT, TCCR0_wgm00, TCCR0_wgm01, TCCR0_com00, TCCR0_com01, TCCR0_foc0,
      TIMER_COMP_OUT_MODE_BIT_0, TIMER_COMP_OUT_MODE_BIT_1,
      TIMER0_MODE_NORMAL, TIMER0_MODE_CTC, TIMER0_MODE_FAST_PWM]
  · intro h
    by_cases hi : c.interrupt = 0 <;>
    simp [-Nat.testBit_zero, testBit_one_zero, Timer0_init, h, hi, Regs.setBits, Regs.write, testBit_writeBitField, TCCR0_wgm00,
      TCCR0_wgm01, TCCR0_com00, TCCR0_com01, TCCR0_foc0, LOGIC_LOW,
      TIMER0_MODE_NORMAL, TIMER0_MODE_CTC, TIMER0_MODE_FAST_PWM]

theorem Timer0_init_compare_output_bits_witness :
    ((Timer0_init ⟨TIMER0_MODE_FAST_PWM, 3, 2, 0, 200, 0⟩ (fun _ => 0x10) .TCCR0).testBit
        TCCR0_com00 = (2 : Nat).testBit 0 ∧
      (Timer0_init ⟨TIMER0_MODE_FAST_PWM, 3, 2, 0, 200, 0⟩ (fun _ => 0x10) .TCCR0).testBit
        TCCR0_com01 = (2 : Nat).testBit 1) ∧
    ((Timer0_init ⟨TIMER0_MODE_NORMAL, 3, 3, 0, 200, 0⟩ (fun _ => 0x30) .TCCR0).testBit
        TCCR0_com00 = false ∧
      (Timer0_init ⟨TIMER0_MODE_NORMAL, 3, 3, 0, 200, 0⟩ (fun _ => 0x30) .TCCR0).testBit
        TCCR0_com01 = false) :=
  ⟨(Timer0_init_compare_output_bits ⟨TIMER0_MODE_FAST_PWM, 3, 2, 0, 200, 0⟩
      (fun _ => 0x10)).1 (Or.inr rfl),
   (Timer0_init_compare_output_bits ⟨TIMER0_MODE_NORMAL, 3, 3, 0, 200, 0⟩
      (fun _ => 0x30)).2 rfl⟩

/-- C9: for every register file, every mode and every `clockSource` and
`compareOutputMode` value, stray high bits included, `Timer0_init` leaves bits
0..2 of TCCR0 equal to `clockSource` mod 8, and the register file it produces
(TCCR0 in particular) is the one produced from the masked values
`clockSource & 7` and `compareOutputMode & 3`. -/
theorem Timer0_init_masks_fields (c : Timer0_Config) (s : Regs) :
    Timer0_init c s .TCCR0 % 8 = c.clockSource % 8 ∧
    Timer0_init c s .TCCR0 =
      Timer0_init { c with clockSource := c.clockSource &&& 7,
                           compareOutputMode := c.compareOutputMode &&& 3 } s .TCCR0 ∧
    Timer0_init c s =
      Timer0_init { c with clockSource := c.clockSource &&& 7,
                           compareOutputMode := c.compareOutputMode &&& 3 } s := by
  have hall : Timer0_init c s =
      Timer0_init { c with clockSource := c.clockSource &&& 7,
                           compareOutputMode := c.compareOutputMode &&& 3 } s := by
    simp only [Timer0_init, and_7_and_7, TIMER_COMP_OUT_MODE_BIT_0, TIMER_COMP_OUT_MODE_BIT_1,
      GET_BIT_and_3 _ 0 (by norm_num), GET_BIT_and_3 _ 1 (by norm_num)]
  exact ⟨mod_8_eq_of_testBit _ _ (Timer0_init_TCCR0_low_bits c s), congrFun hall _, hall⟩

/-- C10: for every register file, `Timer0_init` in Normal mode with the
interrupt flag set leaves TIMSK with TOIE0 = 1 and OCIE0 = 0; in CTC mode with
the flag set it leaves OCIE0 = 1 and TOIE0 = 0; in FastPWM mode it leaves TIMSK
unchanged; and in every case bits 2..7 of TIMSK are unchanged. -/
theorem Timer0_init_TIMSK (c : Timer0_Config) (s : Regs) :
    (c.mode = TIMER0_MODE_NORMAL → c.interrupt ≠ 0 →
      (Timer0_init c s .TIMSK).testBit TIMSK_toie0 = true ∧
      (Timer0_init c s .TIMSK).testBit TIMSK_ocie0 = false) ∧
    (c.mode = TIMER0_MODE_CTC → c.interrupt ≠ 0 →
      (Timer0_init c s .TIMSK).testBit TIMSK_ocie0 = true ∧
      (Timer0_init c s .TIMSK).testBit TIMSK_toie0 = false) ∧
    (c.mode = TIMER0_MODE_FAST_PWM → Timer0_init c s .TIMSK = s .TIMSK) ∧
    (∀ j, 2 ≤ j → j < 8 → (Timer0_init c s .TIMSK).testBit j = (s .TIMSK).testBit j) := by
  refine ⟨?_, ?_, ?_, ?_⟩
  · intro h hi
    simp [-Nat.testBit_zero, testBit_one_zero, Timer0_init, h, hi, Regs.setBits, Regs.write, testBit_writeBitField, TIMSK_toie0,
      TIMSK_ocie0, LOGIC_HIGH, LOGIC_LOW, TIMER0_MODE_NORMAL, TIMER0_MODE_CTC,
      TIMER0_MODE_FAST_PWM]
  · intro h hi
    simp [-Nat.testBit_zero, testBit_one_zero, Timer0_init, h, hi, Regs.setBits, Regs.write, testBit_writeBitField, TIMSK_toie0,
      TIMSK_ocie0, LOGIC_HIGH, LOGIC_LOW, TIMER0_MODE_NORMAL, TIMER0_MODE_CTC,
      TIMER0_MODE_FAST_PWM]
  · intro h
    simp [Timer0_init, h, Regs.setBits, Regs.write, TIMER0_MODE_FAST_PWM]
  · intro j h2 h8
    have h0 : j ≠ 0 := by omega
    have h1 : j ≠ 1 := by omega
    unfold Timer0_init
    split_ifs <;>
    simp [Regs.setBits, Regs.write, testBit_writeBitField, h8, h0, h1, TIMSK_toie0, TIMSK_ocie0]

theorem Timer0_init_TIMSK_witness :
    ((Timer0_init ⟨TIMER0_MODE_NORMAL, 3, 0, 1, 0, 0⟩ (fun _ => 0xAA) .TIMSK).testBit
        TIMSK_toie0 = true ∧
      (Timer0_init ⟨TIMER0_MODE_NORMAL, 3, 0, 1, 0, 0⟩ (fun _ => 0xAA) .TIMSK).testBit
        TIMSK_ocie0 = false) ∧
    ((Timer0_init ⟨TIMER0_MODE_CTC, 3, 0, 1, 9, 0⟩ (fun _ => 0x55) .TIMSK).testBit
        TIMSK_ocie0 = true ∧
      (Timer0_init ⟨TIMER0_MODE_CTC, 3, 0, 1, 9, 0⟩ (fun _ => 0x55) .TIMSK).testBit
        TIMSK_toie0 = false) ∧
    Timer0_init ⟨TIMER0_MODE_FAST_PWM, 3, 2, 1, 200, 0⟩ (fun _ => 0x55) .TIMSK
      = (fun _ => 0x55 : Regs) .TIMSK ∧
    (Timer0_init ⟨TIMER0_MODE_CTC, 3, 0, 1, 9, 0⟩ (fun _ => 0x55) .TIMSK).testBit 6
      = ((fun _ => 0x55 : Regs) .TIMSK).testBit 6 :=
  ⟨(Timer0_init_TIMSK ⟨TIMER0_MODE_NORMAL, 3, 0, 1, 0, 0⟩ (fun _ => 0xAA)).1 rfl (by decide),
   (Timer0_init_TIMSK ⟨TIMER0_MODE_CTC, 3, 0, 1, 9, 0⟩ (fun _ => 0x55)).2.1 rfl (by decide),
   (Timer0_init_TIMSK ⟨TIMER0_MODE_FAST_PWM, 3, 2, 1, 200, 0⟩ (fun _ => 0x55)).2.2.1 rfl,
   (Timer0_init_TIMSK ⟨TIMER0_MODE_CTC, 3, 0, 1, 9, 0⟩ (fun _ => 0x55)).2.2.2 6
     (by decide) (by decide)⟩

/-! ## Timer0 driver: closed forms of the registers after `Timer0_init` -/

theorem writeBitField_lt (reg pos v : Nat) : writeBitField reg pos v < 256 :=
  Nat.mod_lt _ (by norm_num)

theorem testBit_eq_false_of_lt_256 (x j : Nat) (hx : x < 256) (hj : 8 ≤ j) :
    x.testBit j = false := by
  apply Nat.testBit_lt_two_pow
  calc x < 2 ^ 8 := by simpa using hx
    _ ≤ 2 ^ j := Nat.pow_le_pow_right (by norm_num) hj

/-- Bit `j` of TCCR0 after `Timer0_init`, for every bit below 8. -/
theorem testBit_Timer0_init_TCCR0 (c : Timer0_Config) (s : Regs) (j : Nat) (hj : j < 8) :
    (Timer0_init c s .TCCR0).testBit j =
      if j < 3 then c.clockSource.testBit j
      else if c.mode = TIMER0_MODE_FAST_PWM then
        (if j = 3 ∨ j = 6 then true
         else if j = 4 then c.compareOutputMode.testBit 0
         else if j = 5 then c.compareOutputMode.testBit 1
         else (s .TCCR0).testBit j)
      else if c.mode = TIMER0_MODE_CTC then
        (if j = 3 ∨ j = 7 then true
         else if j = 4 then c.compareOutputMode.testBit 0
         else if j = 5 then c.compareOutputMode.testBit 1
         else false)
      else if c.mode = TIMER0_MODE_NORMAL then decide (j = 7)
      else (s .TCCR0).testBit j := by
  by_cases h2 : c.mode = TIMER0_MODE_FAST_PWM
  · interval_cases j <;>
    simp [-Nat.testBit_zero, testBit_one_zero, TIMER0_MODE_NORMAL, TIMER0_MODE_CTC,
      TIMER0_MODE_FAST_PWM, Timer0_init, h2, Regs.setBits,
      Regs.write, testBit_writeBitField, testBit_clockSelect, testBit_zero_GET_BIT, TCCR0_wgm00,
      TCCR0_wgm01, TCCR0_com00, TCCR0_com01, LOGIC_HIGH,
      TIMER_COMP_OUT_MODE_BIT_0, TIMER_COMP_OUT_MODE_BIT_1]
  by_cases h1 : c.mode = TIMER0_MODE_CTC
  · by_cases hi : c.interrupt = 0 <;> interval_cases j <;>
    simp [-Nat.testBit_zero, testBit_one_zero, TIMER0_MODE_NORMAL, TIMER0_MODE_CTC,
      TIMER0_MODE_FAST_PWM, Timer0_init, hi, h1, h2, Regs.setBits,
      Regs.write, testBit_writeBitField, testBit_clockSelect, testBit_zero_GET_BIT, TCCR0_wgm00,
      TCCR0_wgm01, TCCR0_com00, TCCR0_com01, TCCR0_foc0, LOGIC_HIGH, LOGIC_LOW,
      TIMER_COMP_OUT_MODE_BIT_0, TIMER_COMP_OUT_MODE_BIT_1]
  by_cases h0 : c.mode = TIMER0_MODE_NORMAL
  · by_cases hi : c.interrupt = 0 <;> interval_cases j <;>
    simp [-Nat.testBit_zero, testBit_one_zero, TIMER0_MODE_NORMAL, TIMER0_MODE_CTC,
      TIMER0_MODE_FAST_PWM, Timer0_init, hi, h0, h1, h2, Regs.setBits,
      Regs.write, testBit_writeBitField, testBit_clockSelect, TCCR0_wgm00,
      TCCR0_wgm01, TCCR0_com00, TCCR0_com01, TCCR0_foc0, LOGIC_HIGH, LOGIC_LOW]
  · simp only [TIMER0_MODE_NORMAL, TIMER0_MODE_CTC, TIMER0_MODE_FAST_PWM] at h0 h1 h2
    interval_cases j <;>
    simp [-Nat.testBit_zero, TIMER0_MODE_NORMAL, TIMER0_MODE_CTC,
      TIMER0_MODE_FAST_PWM, Timer0_init, h0, h1, h2, Regs.write, testBit_clockSelect]

theorem Timer0_init_TCCR0_lt (c : Timer0_Config) (s : Regs) : Timer0_init c s .TCCR0 < 256 := by
  unfold Timer0_init
  split_ifs <;>
  simp only [Regs.setBits, Regs.write, Function.update_same, ne_eq, reduceCtorEq,
    not_false_eq_true, Function.update_noteq] <;>
  first
    | exact writeBitField_lt _ _ _
    | exact Nat.mod_lt _ (by norm_num)


theorem testBit_writeBitField_all (reg pos v j : Nat) :
    (writeBitField reg pos v).testBit j =
      (decide (j < 8) && if j = pos then v.testBit 0 else reg.testBit j) := by
  by_cases hj : j < 8
  · simp [-Nat.testBit_zero, testBit_writeBitField, hj]
  · rw [testBit_eq_false_of_lt_256 _ _ (writeBitField_lt _ _ _) (by omega)]
    simp [hj]

theorem Timer0_init_TCNT0 (c : Timer0_Config) (s : Regs) :
    Timer0_init c s .TCNT0 = c.intialCount % 256 := by
  unfold Timer0_init
  split_ifs <;> simp [Regs.setBits, Regs.write]

theorem Timer0_init_OCR0 (c : Timer0_Config) (s : Regs) :
    Timer0_init c s .OCR0 =
      if c.mode = TIMER0_MODE_FAST_PWM ∨ c.mode = TIMER0_MODE_CTC then c.tick % 256
      else s .OCR0 := by
  unfold Timer0_init
  split_ifs <;> simp_all [Regs.setBits, Regs.write]

theorem Timer0_init_TIMSK_eq (c : Timer0_Config) (s : Regs) :
    Timer0_init c s .TIMSK =
      if c.mode = TIMER0_MODE_CTC ∧ c.interrupt ≠ 0 then
        writeBitField (writeBitField (s .TIMSK) TIMSK_ocie0 LOGIC_HIGH) TIMSK_toie0 LOGIC_LOW
      else if c.mode = TIMER0_MODE_NORMAL ∧ c.interrupt ≠ 0 then
        writeBitField (writeBitField (s .TIMSK) TIMSK_toie0 LOGIC_HIGH) TIMSK_ocie0 LOGIC_LOW
      else s .TIMSK := by
  unfold Timer0_init
  split_ifs <;>
  simp_all [Regs.setBits, Regs.write, TIMER0_MODE_NORMAL, TIMER0_MODE_CTC, TIMER0_MODE_FAST_PWM]

theorem Timer0_init_frame (c : Timer0_Config) (s : Regs) (r : Reg)
    (h1 : r ≠ .TCCR0) (h2 : r ≠ .TCNT0) (h3 : r ≠ .OCR0) (h4 : r ≠ .TIMSK) :
    Timer0_init c s r = s r := by
  unfold Timer0_init
  split_ifs <;> simp [Regs.setBits, Regs.write, Function.update_noteq, h1, h2, h3, h4]

theorem writeBitField_pair_idem (x p q v w : Nat) :
    writeBitField (writeBitField (writeBitField (writeBitField x p v) q w) p v) q w =
      writeBitField (writeBitField x p v) q w := by
  apply Nat.eq_of_testBit_eq
  intro j
  simp only [testBit_writeBitField_all]
  by_cases hj : j < 8 <;> by_cases h1 : j = p <;> by_cases h2 : j = q <;> simp [hj, h1, h2]

theorem Timer0_init_idem (c : Timer0_Config) (s : Regs) :
    Timer0_init c (Timer0_init c s) = Timer0_init c s := by
  funext r
  by_cases h1 : r = .TCCR0
  · subst h1
    apply Nat.eq_of_testBit_eq
    intro j
    by_cases hj : j < 8
    · rw [testBit_Timer0_init_TCCR0 c _ j hj, testBit_Timer0_init_TCCR0 c s j hj]
      split_ifs <;> simp_all
    · rw [testBit_eq_false_of_lt_256 _ _ (Timer0_init_TCCR0_lt _ _) (by omega),
        testBit_eq_false_of_lt_256 _ _ (Timer0_init_TCCR0_lt _ _) (by omega)]
  by_cases h2 : r = .TCNT0
  · subst h2
    rw [Timer0_init_TCNT0, Timer0_init_TCNT0]
  by_cases h3 : r = .OCR0
  · subst h3
    rw [Timer0_init_OCR0 c (Timer0_init c s), Timer0_init_OCR0 c s]
    split_ifs <;> rfl
  by_cases h4 : r = .TIMSK
  · subst h4
    rw [Timer0_init_TIMSK_eq c (Timer0_init c s), Timer0_init_TIMSK_eq c s]
    split_ifs <;> first | rfl | exact writeBitField_pair_idem _ _ _ _ _
  · rw [Timer0_init_frame c _ r h1 h2 h3 h4]


/-! ## Timer0 driver: interrupts, counter, duty cycle, idempotence, callback -/

/-- C11 (failing input): with `interrupt = FALSE`, `Timer0_init` stores nothing
into TIMSK in any mode, so the Timer0 interrupt enables that were set before
the call stay set instead of being disabled: from TIMSK = 0x03, initialising
in Normal mode with `interrupt = FALSE` leaves TOIE0 = 1 and OCIE0 = 1. -/
theorem Timer0_init_FALSE_keeps_TIMSK (c : Timer0_Config) (s : Regs) :
    Timer0_init { c with interrupt := FALSE } s .TIMSK = s .TIMSK ∧
    (Timer0_init ⟨TIMER0_MODE_NORMAL, 3, 0, FALSE, 0, 0⟩ (fun _ => 0x03) .TIMSK).testBit
      TIMSK_toie0 = true ∧
    (Timer0_init ⟨TIMER0_MODE_NORMAL, 3, 0, FALSE, 0, 0⟩ (fun _ => 0x03) .TIMSK).testBit
      TIMSK_ocie0 = true := by
  refine ⟨?_, by decide, by decide⟩
  rw [Timer0_init_TIMSK_eq]
  simp [FALSE]

/-- C12: for every register file and every configuration (`tick` and
`intialCount` being `uint8` values), after `Timer0_init` TCNT0 equals
`intialCount` whatever the mode is; OCR0 equals `tick` in CTC and FastPWM
mode; and in Normal mode OCR0 is as before. -/
theorem Timer0_init_counter_and_compare (c : Timer0_Config) (s : Regs)
    (hcount : c.intialCount < 256) (htick : c.tick < 256) :
    Timer0_init c s .TCNT0 = c.intialCount ∧
    (c.mode = TIMER0_MODE_CTC ∨ c.mode = TIMER0_MODE_FAST_PWM →
      Timer0_init c s .OCR0 = c.tick) ∧
    (c.mode = TIMER0_MODE_NORMAL → Timer0_init c s .OCR0 = s .OCR0) := by
  refine ⟨?_, ?_, ?_⟩
  · rw [Timer0_init_TCNT0, Nat.mod_eq_of_lt hcount]
  · intro h
    rw [Timer0_init_OCR0, if_pos (Or.symm h), Nat.mod_eq_of_lt htick]
  · intro h
    rw [Timer0_init_OCR0, if_neg]
    simp [h, TIMER0_MODE_NORMAL, TIMER0_MODE_CTC, TIMER0_MODE_FAST_PWM]

theorem Timer0_init_counter_and_compare_witness :
    (Timer0_init ⟨TIMER0_MODE_CTC, 3, 0, 0, 249, 6⟩ (fun _ => 0xFF) .TCNT0 = 6 ∧
      Timer0_init ⟨TIMER0_MODE_CTC, 3, 0, 0, 249, 6⟩ (fun _ => 0xFF) .OCR0 = 249) ∧
    Timer0_init ⟨TIMER0_MODE_NORMAL, 3, 0, 0, 249, 6⟩ (fun _ => 0xFF) .OCR0
      = (fun _ => 0xFF : Regs) .OCR0 :=
  ⟨⟨(Timer0_init_counter_and_compare ⟨TIMER0_MODE_CTC, 3, 0, 0, 249, 6⟩ (fun _ => 0xFF)
        (by decide) (by decide)).1,
     (Timer0_init_counter_and_compare ⟨TIMER0_MODE_CTC, 3, 0, 0, 249, 6⟩ (fun _ => 0xFF)
        (by decide) (by decide)).2.1 (Or.inl rfl)⟩,
   (Timer0_init_counter_and_compare ⟨TIMER0_MODE_NORMAL, 3, 0, 0, 249, 6⟩ (fun _ => 0xFF)
      (by decide) (by decide)).2.2 rfl⟩

/-- C13: for every configuration, every register file and every 8-bit value
`v`, `Timer0_init(c)` followed by `Timer0_setDutyCycle(v)` leaves OCR0 equal to
`v` and leaves TCCR0, TCNT0, TIMSK and every other register as `Timer0_init(c)`
left them. -/
theorem Timer0_setDutyCycle_after_init (c : Timer0_Config) (s : Regs) (v : Nat)
    (hv : v < 256) :
    Timer0_setDutyCycle v (Timer0_init c s) .OCR0 = v ∧
    Timer0_setDutyCycle v (Timer0_init c s) .TCCR0 = Timer0_init c s .TCCR0 ∧
    Timer0_setDutyCycle v (Timer0_init c s) .TCNT0 = Timer0_init c s .TCNT0 ∧
    Timer0_setDutyCycle v (Timer0_init c s) .TIMSK = Timer0_init c s .TIMSK ∧
    (∀ r, r ≠ .OCR0 → Timer0_setDutyCycle v (Timer0_init c s) r = Timer0_init c s r) := by
  refine ⟨?_, ?_, ?_, ?_, ?_⟩
  · rw [Timer0_setDutyCycle, Regs.write_same, Nat.mod_eq_of_lt hv]
  · exact Regs.write_other _ _ _ _ (by decide)
  · exact Regs.write_other _ _ _ _ (by decide)
  · exact Regs.write_other _ _ _ _ (by decide)
  · intro r hr
    exact Regs.write_other _ _ _ _ hr

/-- C13, the instance of the specification: `mode = FastPWM, tick = 200`
followed by `Timer0_setDutyCycle(50)` leaves OCR0 = 50. -/
theorem Timer0_setDutyCycle_after_init_witness :
    50 < 256 ∧
    Timer0_init ⟨TIMER0_MODE_FAST_PWM, 2, 2, FALSE, 200, 0⟩ Regs.zero .OCR0 = 200 ∧
    Timer0_setDutyCycle 50
      (Timer0_init ⟨TIMER0_MODE_FAST_PWM, 2, 2, FALSE, 200, 0⟩ Regs.zero) .OCR0 = 50 :=
  ⟨by decide, by decide,
    (Timer0_setDutyCycle_after_init ⟨TIMER0_MODE_FAST_PWM, 2, 2, FALSE, 200, 0⟩ Regs.zero 50
      (by decide)).1⟩

/-- C14: `Timer0_init` is idempotent: for every configuration and every
register file, running it twice yields the register file (TCCR0, TCNT0, OCR0
and TIMSK in particular) that running it once yields. -/
theorem Timer0_init_idempotent (c : Timer0_Config) (s : Regs) :
    Timer0_init c (Timer0_init c s) = Timer0_init c s ∧
    Timer0_init c (Timer0_init c s) .TCCR0 = Timer0_init c s .TCCR0 ∧
    Timer0_init c (Timer0_init c s) .TCNT0 = Timer0_init c s .TCNT0 ∧
    Timer0_init c (Timer0_init c s) .OCR0 = Timer0_init c s .OCR0 ∧
    Timer0_init c (Timer0_init c s) .TIMSK = Timer0_init c s .TIMSK := by
  have h := Timer0_init_idem c s
  exact ⟨h, congrFun h _, congrFun h _, congrFun h _, congrFun h _⟩

/-- C15: the callback slot is single and last-writer-wins. At program start it
is empty and both interrupt handlers leave the machine unchanged; after
`Timer0_setCallback(f)` followed by `Timer0_setCallback(g)` each of the two
handlers does exactly what one call of `g` does, so that with calls recorded
in a log each handler adds the single entry `g`; and the two handlers have
the same effect whatever the slot holds. -/
theorem Timer0_callback_slot {F σ : Type}
    (call : F → Timer0_Machine F σ → Timer0_Machine F σ) (rest : σ) (f g : F)
    (m : Timer0_Machine F σ) (slot : Option F) (log : List F) :
    (Timer0_Machine.start rest : Timer0_Machine F σ).PTR2_Timer0_CallBack = none ∧
    ISR_TIMER0_COMP_vect call (Timer0_Machine.start rest) = Timer0_Machine.start rest ∧
    ISR_TIMER0_OVF_vect call (Timer0_Machine.start rest) = Timer0_Machine.start rest ∧
    (Timer0_setCallback (some g) (Timer0_setCallback (some f) m)).PTR2_Timer0_CallBack
      = some g ∧
    ISR_TIMER0_COMP_vect call (Timer0_setCallback (some g) (Timer0_setCallback (some f) m))
      = call g (Timer0_setCallback (some g) (Timer0_setCallback (some f) m)) ∧
    ISR_TIMER0_OVF_vect call (Timer0_setCallback (some g) (Timer0_setCallback (some f) m))
      = call g (Timer0_setCallback (some g) (Timer0_setCallback (some f) m)) ∧
    (ISR_TIMER0_COMP_vect recordCall
      (Timer0_setCallback (some g) (Timer0_setCallback (some f) ⟨slot, log⟩))).rest
      = log ++ [g] ∧
    (ISR_TIMER0_OVF_vect recordCall
      (Timer0_setCallback (some g) (Timer0_setCallback (some f) ⟨slot, log⟩))).rest
      = log ++ [g] ∧
    ISR_TIMER0_COMP_vect call m = ISR_TIMER0_OVF_vect call m :=
  ⟨rfl, rfl, rfl, rfl, rfl, rfl, rfl, rfl, rfl⟩

/-! ## The macro `MAP`, the light sensor and the motor: helper lemmas -/

theorem int_value_of_bounds (v : Int) (h1 : -32768 ≤ v) (h2 : v ≤ 32767) :
    int_value v = some v := by
  simp [int_value, INT_MIN, INT_MAX, h1, h2]

/-- The macro `MAP` from an input range `0..inMax` to an output range
`0..outMax` on a non-negative input whose product with `outMax` fits the
`int` of the target. -/
theorem MAP_from_zero (x inMax outMax : Nat) (hin : 0 < inMax) (hinMax : inMax ≤ 32767)
    (hout : outMax ≤ 32767) (hx : x ≤ 32767) (hprod : x * outMax ≤ 32767) :
    MAP (x : Int) 0 (inMax : Int) 0 (outMax : Int) = some ((x * outMax / inMax : Nat) : Int) := by
  have hq : Int.tdiv ((x : Int) * (outMax : Int)) (inMax : Int) = ((x * outMax / inMax : Nat) : Int) := by
    rw [Int.tdiv_eq_ediv (by positivity) (by positivity)]
    push_cast
    rfl
  have hqle : x * outMax / inMax ≤ 32767 := le_trans (Nat.div_le_self _ _) hprod
  have hne : ¬ ((inMax : Int) = 0) := by
    have : (0 : Int) < (inMax : Int) := by exact_mod_cast hin
    omega
  unfold MAP
  simp only [sub_zero, add_zero]
  rw [int_value_of_bounds (x : Int) (by omega) (by omega),
    int_value_of_bounds (outMax : Int) (by omega) (by omega)]
  simp only [Option.bind_eq_bind, Option.some_bind]
  rw [int_value_of_bounds ((x : Int) * (outMax : Int))
      (le_trans (by norm_num) (mul_nonneg (Int.ofNat_nonneg x) (Int.ofNat_nonneg outMax)))
      (by exact_mod_cast hprod),
    int_value_of_bounds (inMax : Int) (by omega) (by omega)]
  simp only [Option.some_bind, hne, if_false, hq]
  rw [int_value_of_bounds _ (le_trans (by norm_num) (Int.ofNat_nonneg _))
    (by exact_mod_cast hqle)]
  simp only [Option.some_bind]
  exact int_value_of_bounds _ (le_trans (by norm_num) (Int.ofNat_nonneg _))
    (by exact_mod_cast hqle)


theorem LDR_getLightIntensity_of_le (r : Nat) (h : r ≤ 327) :
    LDR_getLightIntensity r = some (r * 100 / 200) := by
  have hmap := MAP_from_zero r 200 100 (by norm_num) (by norm_num) (by norm_num) (by omega)
    (by omega)
  have hr : r % 65536 = r := Nat.mod_eq_of_lt (by omega)
  have hcast : int_of_uint16 r = (r : Int) := by
    unfold int_of_uint16
    rw [hr, if_pos (by omega)]
  have hlt : r * 100 / 200 < 65536 := by omega
  have hback : uint16_of_int ((r * 100 / 200 : Nat) : Int) = r * 100 / 200 := by
    unfold uint16_of_int
    rw [Int.emod_eq_of_lt (Int.ofNat_nonneg _) (by exact_mod_cast hlt), Int.toNat_ofNat]
  unfold LDR_getLightIntensity
  simp only [hr, hcast]
  simp only [Nat.cast_ofNat] at hmap
  rw [hmap]
  simp only [Option.bind_eq_bind, Option.some_bind, hback]

theorem pgm_read_ioPins_DCMOTOR :
    pgm_read_ioPins DCMOTOR_IN_1 = some (GPIO_PIN .B 0) ∧
    pgm_read_ioPins DCMOTOR_IN_2 = some (GPIO_PIN .B 1) ∧
    ¬ DCMOTOR_IN_1 > NUM_OF_PINS ∧ ¬ DCMOTOR_IN_2 > NUM_OF_PINS := by
  refine ⟨rfl, rfl, by decide, by decide⟩

/-- When the duty computation is defined, `DcMotor_rotate` returns, and what it
returns is its stores into PORTB followed by the store of the duty into OCR0. -/
theorem DcMotor_rotate_of_MAP (a_state a_speed : Nat) (s : Regs) (d : Int)
    (hd : MAP (a_speed : Int) 0 100 0 255 = some d) :
    ∃ s1, DcMotor_rotate a_state a_speed s = some (Timer0_setDutyCycle (uint8_of_int d) s1) ∧
      ∀ r, r ≠ .PORTB → s1 r = s r := by
  obtain ⟨e1, e2, g1, g2⟩ := pgm_read_ioPins_DCMOTOR
  unfold DcMotor_rotate
  simp only [hd, GPIO_ARR_setPinState_of_entry _ _ _ _ _ g1 e1,
    GPIO_ARR_setPinState_of_entry _ _ _ _ _ g2 e2, Option.bind_eq_bind, Option.some_bind,
    Option.map_some', LOGIC_HIGH, LOGIC_LOW, HIGH, if_true, zero_ne_one, if_false]
  split_ifs <;>
  refine ⟨_, rfl, ?_⟩ <;>
  intro r hr <;>
  simp [PortName.PORT, Regs.write_other _ _ _ _ hr]


theorem uint8_of_int_natCast (n : Nat) (h : n < 256) : uint8_of_int (n : Int) = n := by
  unfold uint8_of_int
  rw [Int.emod_eq_of_lt (Int.ofNat_nonneg _) (by exact_mod_cast h), Int.toNat_ofNat]

/-! ## Remapping: motor duty and light intensity -/

/-- C16: for every speed `x` in 0..100, `MAP(x, 0, 100, 0, 255)` is defined and
equals floor(x * 255 / 100), which lies in 0..255 and is the value that
`DcMotor_rotate(state, x)` leaves in OCR0 for every state and every register
file; `x = 0` gives 0, `x = 75` gives 191 and `x = 100` gives 255. -/
theorem MAP_speed_is_duty (x : Nat) (hx : x ≤ 100) :
    MAP (x : Int) 0 100 0 255 = some ((x * 255 / 100 : Nat) : Int) ∧
    x * 255 / 100 ≤ 255 ∧
    (∀ state s, ∃ s1, DcMotor_rotate state x s = some s1 ∧ s1 .OCR0 = x * 255 / 100) ∧
    MAP 0 0 100 0 255 = some 0 ∧ MAP 75 0 100 0 255 = some 191 ∧
    MAP 100 0 100 0 255 = some 255 := by
  have hmap := MAP_from_zero x 100 255 (by norm_num) (by norm_num) (by norm_num) (by omega)
    (by omega)
  simp only [Nat.cast_ofNat] at hmap
  have hle : x * 255 / 100 ≤ 255 := by omega
  refine ⟨hmap, hle, ?_, by decide, by decide, by decide⟩
  intro state s
  obtain ⟨s1, h1, _⟩ := DcMotor_rotate_of_MAP state x s _ hmap
  refine ⟨_, h1, ?_⟩
  rw [Timer0_setDutyCycle, Regs.write_same, uint8_of_int_natCast _ (by omega),
    Nat.mod_eq_of_lt (by omega)]

theorem MAP_speed_is_duty_witness :
    75 ≤ 100 ∧
    MAP ((75 : Nat) : Int) 0 100 0 255 = some ((75 * 255 / 100 : Nat) : Int) ∧
    75 * 255 / 100 ≤ 255 ∧
    (∀ state s, ∃ s1, DcMotor_rotate state 75 s = some s1 ∧ s1 .OCR0 = 75 * 255 / 100) ∧
    MAP 0 0 100 0 255 = some 0 ∧ MAP 75 0 100 0 255 = some 191 ∧
    MAP 100 0 100 0 255 = some 255 :=
  ⟨by decide, MAP_speed_is_duty 75 (by decide)⟩

/-- C17: for every raw reading `r` in 0..200, `LDR_getLightIntensity` returns
floor(r * 100 / 200) = floor(r / 2), which lies in 0..100 and is non-decreasing
in `r`; `r = 0` gives 0, `r = 100` gives 50 and `r = 200` gives 100. -/
theorem LDR_getLightIntensity_in_range (r : Nat) (hr : r ≤ 200) :
    LDR_getLightIntensity r = some (r * 100 / 200) ∧
    r * 100 / 200 = r / 2 ∧ r / 2 ≤ 100 ∧
    (∀ r2, r ≤ r2 → r2 ≤ 200 →
      ∃ a b, LDR_getLightIntensity r = some a ∧ LDR_getLightIntensity r2 = some b ∧ a ≤ b) ∧
    LDR_getLightIntensity 0 = some 0 ∧ LDR_getLightIntensity 100 = some 50 ∧
    LDR_getLightIntensity 200 = some 100 := by
  refine ⟨LDR_getLightIntensity_of_le r (by omega), by omega, by omega, ?_,
    by decide, by decide, by decide⟩
  intro r2 h12 h2
  exact ⟨_, _, LDR_getLightIntensity_of_le r (by omega),
    LDR_getLightIntensity_of_le r2 (by omega), by omega⟩

theorem LDR_getLightIntensity_in_range_witness :
    100 ≤ 200 ∧
    LDR_getLightIntensity 100 = some (100 * 100 / 200) ∧
    100 * 100 / 200 = 100 / 2 ∧ 100 / 2 ≤ 100 ∧
    (∀ r2, 100 ≤ r2 → r2 ≤ 200 →
      ∃ a b, LDR_getLightIntensity 100 = some a ∧ LDR_getLightIntensity r2 = some b ∧ a ≤ b) ∧
    LDR_getLightIntensity 0 = some 0 ∧ LDR_getLightIntensity 100 = some 50 ∧
    LDR_getLightIntensity 200 = some 100 :=
  ⟨by decide, LDR_getLightIntensity_in_range 100 (by decide)⟩

/-- C18 (counterexample): the reading 201 lies above the input range, yet
`LDR_getLightIntensity` returns 201 * 100 / 200 = 100, which is not greater
than 100. -/
theorem LDR_getLightIntensity_201_is_100 :
    (201 ≤ 201 ∧ 201 ≤ 1023) ∧ LDR_getLightIntensity 201 = some 100 ∧
    ¬ ∃ v, LDR_getLightIntensity 201 = some v ∧ 100 < v := by
  have h : LDR_getLightIntensity 201 = some 100 := by decide
  refine ⟨by decide, h, ?_⟩
  rintro ⟨v, hv, hlt⟩
  rw [h] at hv
  injection hv with hv
  omega

/-- C18 (amended): for every raw reading `r` in 202..327, where the product
`r * 100` fits the 16-bit `int` of the target, `LDR_getLightIntensity` does not
clamp: it returns floor(r * 100 / 200) = floor(r / 2), which is greater than
100; at `r = 201` it returns exactly 100. -/
theorem LDR_getLightIntensity_above_range (r : Nat) (h1 : 202 ≤ r) (h2 : r ≤ 327) :
    (∃ v, LDR_getLightIntensity r = some v ∧ v = r * 100 / 200 ∧ v = r / 2 ∧ 100 < v) ∧
    r * 100 ≤ 32767 ∧ LDR_getLightIntensity 201 = some 100 := by
  refine ⟨⟨_, LDR_getLightIntensity_of_le r h2, rfl, by omega, by omega⟩, by omega, by decide⟩

theorem LDR_getLightIntensity_above_range_witness :
    (202 ≤ 300 ∧ 300 ≤ 327) ∧
    (∃ v, LDR_getLightIntensity 300 = some v ∧ v = 300 * 100 / 200 ∧ v = 300 / 2 ∧ 100 < v) ∧
    300 * 100 ≤ 32767 ∧ LDR_getLightIntensity 201 = some 100 :=
  ⟨by decide, LDR_getLightIntensity_above_range 300 (by decide) (by decide)⟩


/-! ## Character display: helper lemmas -/

theorem LCD_sendChar_some (c : Nat) (w : LCD_World) :
    ∃ r, LCD_sendChar c w = some ⟨r, w.transfers ++ [.data (c % 256)]⟩ := by
  have eRS : pgm_read_ioPins LCD_RS = some (GPIO_PIN .D 0) := rfl
  have eE : pgm_read_ioPins LCD_E = some (GPIO_PIN .D 1) := rfl
  have gRS : ¬ LCD_RS > NUM_OF_PINS := by decide
  have gE : ¬ LCD_E > NUM_OF_PINS := by decide
  unfold LCD_sendChar
  simp only [GPIO_ARR_setPinState_of_entry _ _ _ _ _ gRS eRS,
    GPIO_ARR_setPinState_of_entry _ _ _ _ _ gE eE, Option.bind_eq_bind, Option.some_bind]
  exact ⟨_, rfl⟩

/-- The loop of `LCD_displayString` on a NUL-terminated string, started at an
index `i ≤ 15`: it leaves the loop with `i = min (i + length) 15`, having sent
the first `16 - i` characters. -/
theorem LCD_displayString_loop_spec (rest : List Nat) :
    ∀ (cs : List Nat), (∀ c ∈ cs, c ≠ 0) → ∀ (i : Nat), i ≤ 15 → ∀ (w : LCD_World),
      ∃ w1, LCD_displayString_loop (cs ++ 0 :: rest) i w = some (min (i + cs.length) 15, w1) ∧
        w1.transfers = w.transfers ++ (cs.take (16 - i)).map (fun c => .data (c % 256)) := by
  intro cs
  induction cs with
  | nil =>
    intro _ i hi w
    refine ⟨w, ?_, by simp⟩
    simp [LCD_displayString_loop, hi]
  | cons c cs ih =>
    intro hcs i hi w
    have hc : c ≠ 0 := hcs c (List.mem_cons_self _ _)
    have hcs2 : ∀ d ∈ cs, d ≠ 0 := fun d hd => hcs d (List.mem_cons_of_mem _ hd)
    obtain ⟨r, hr⟩ := LCD_sendChar_some c w
    by_cases h15 : i = 15
    · subst h15
      refine ⟨⟨r, w.transfers ++ [.data (c % 256)]⟩, ?_, by simp⟩
      simp [LCD_displayString_loop, hc, hr, LCD_MAX_COLUMNS_INDEX]
    · obtain ⟨w1, h1, h2⟩ := ih hcs2 (i + 1) (by omega) ⟨r, w.transfers ++ [.data (c % 256)]⟩
      refine ⟨w1, ?_, ?_⟩
      · simp only [List.cons_append, LCD_displayString_loop, hc, if_false, hr,
          Option.bind_eq_bind, Option.some_bind, LCD_MAX_COLUMNS_INDEX, h15,
          List.length_cons]
        have e : i + (cs.length + 1) = i + 1 + cs.length := by omega
        rw [e]
        exact h1
      · rw [h2]
        have : 16 - i = (16 - (i + 1)) + 1 := by omega
        rw [this, List.take_succ_cons]
        simp


/-- The call `LCD_displayString` on a NUL-terminated string returns: the status
is always `SUCSSES` and the characters sent are the first 16 at most. -/
theorem LCD_displayString_spec (cs rest : List Nat) (w : LCD_World) (hcs : ∀ c ∈ cs, c ≠ 0) :
    ∃ w1, LCD_displayString (cs ++ 0 :: rest) w = some (SUCSSES, w1) ∧
      w1.transfers = w.transfers ++ (cs.take 16).map (fun c => .data (c % 256)) := by
  obtain ⟨w1, h1, h2⟩ := LCD_displayString_loop_spec rest cs hcs 0 (by omega) w
  refine ⟨w1, ?_, h2⟩
  have hlt : min (0 + cs.length) 15 < LCD_COLUMNS := by
    simp only [LCD_COLUMNS]
    omega
  simp only [LCD_displayString, h1, Option.bind_eq_bind, Option.some_bind, hlt, if_true]

/-! ## Character display -/

/-- C19: for every NUL-terminated string, `LCD_displayString` returns and has
called `LCD_sendChar` exactly on the first min(length, 16) characters of the
string, in order and once each, and on nothing else; a string longer than 16
characters is cut to its first 16 characters. -/
theorem LCD_displayString_sends_prefix (cs rest : List Nat) (w : LCD_World)
    (hcs : ∀ c ∈ cs, c ≠ 0 ∧ c < 256) :
    ∃ st w1, LCD_displayString (cs ++ 0 :: rest) w = some (st, w1) ∧
      w1.transfers = w.transfers ++ (cs.take 16).map LCD_Transfer.data ∧
      (cs.take 16).length = min cs.length 16 := by
  obtain ⟨w1, h1, h2⟩ := LCD_displayString_spec cs rest w (fun c hc => (hcs c hc).1)
  refine ⟨SUCSSES, w1, h1, ?_, by simp [Nat.min_comm]⟩
  rw [h2]
  congr 1
  apply List.map_congr_left
  intro c hc
  rw [Nat.mod_eq_of_lt (hcs c (List.mem_of_mem_take hc)).2]

theorem LCD_displayString_sends_prefix_witness :
    (∀ c ∈ List.replicate 18 70, c ≠ 0 ∧ c < 256) ∧
    ∃ st w1, LCD_displayString (List.replicate 18 70 ++ 0 :: []) ⟨Regs.zero, []⟩ = some (st, w1) ∧
      w1.transfers = (⟨Regs.zero, []⟩ : LCD_World).transfers ++
        ((List.replicate 18 70).take 16).map LCD_Transfer.data ∧
      ((List.replicate 18 70).take 16).length = min (List.replicate 18 70).length 16 :=
  ⟨by decide, LCD_displayString_sends_prefix (List.replicate 18 70) [] ⟨Regs.zero, []⟩
    (by decide)⟩

/-- C20 (failing input): on a string of 17 characters `LCD_displayString`
returns `SUCSSES`, not `EXCEEDMAXCOLUMNS`: the loop leaves by `break` at
`i = 15` before `i` is incremented, so `i < LCD_COLUMNS` always holds at the
`return`. -/
theorem LCD_displayString_17_chars_returns_SUCSSES (w : LCD_World) :
    (List.replicate 17 65).length = 17 ∧ SUCSSES ≠ EXCEEDMAXCOLUMNS ∧
    ∃ w1, LCD_displayString (List.replicate 17 65 ++ 0 :: []) w = some (SUCSSES, w1) := by
  obtain ⟨w1, h1, _⟩ := LCD_displayString_spec (List.replicate 17 65) [] w (by decide)
  exact ⟨rfl, by decide, w1, h1⟩


/-! ## Port-level driver: helper lemmas -/

theorem portOfId_cases (p : Nat) (q : PortName) (h : portOfId p = some q) :
    (p = 0 ∧ q = .A) ∨ (p = 1 ∧ q = .B) ∨ (p = 2 ∧ q = .C) ∨ (p = 3 ∧ q = .D) := by
  unfold portOfId at h
  simp only [PORTA_ID, PORTB_ID, PORTC_ID, PORTD_ID] at h
  split_ifs at h with h0 h1 h2 h3 <;> simp_all

theorem portOfId_of_lt (p : Nat) (h : p < 4) : ∃ q, portOfId p = some q := by
  interval_cases p <;> exact ⟨_, rfl⟩

theorem GPIO_writePin_of_port (p b v : Nat) (s : Regs) (q : PortName)
    (h : portOfId p = some q) :
    GPIO_writePin p b v s =
      if v = LOW then s.write q.PORT (CLEAR_BIT (s q.PORT) b)
      else s.write q.PORT (SET_BIT (s q.PORT) b) := by
  rcases portOfId_cases p q h with ⟨rfl, rfl⟩ | ⟨rfl, rfl⟩ | ⟨rfl, rfl⟩ | ⟨rfl, rfl⟩ <;>
  simp [GPIO_writePin, PORTA_ID, PORTB_ID, PORTC_ID, PORTD_ID, PortName.PORT]

theorem GPIO_setupPinDirection_of_port (p b st : Nat) (s : Regs) (q : PortName)
    (h : portOfId p = some q) :
    GPIO_setupPinDirection p b st s =
      if st = PIN_INPUT then s.write q.DDR (CLEAR_BIT (s q.DDR) b)
      else if st = PIN_OUTPUT then s.write q.DDR (SET_BIT (s q.DDR) b)
      else if st = PIN_INPUT_PULLUP then
        (s.write q.DDR (CLEAR_BIT (s q.DDR) b)).write q.PORT
          (SET_BIT ((s.write q.DDR (CLEAR_BIT (s q.DDR) b)) q.PORT) b)
      else s := by
  rcases portOfId_cases p q h with ⟨rfl, rfl⟩ | ⟨rfl, rfl⟩ | ⟨rfl, rfl⟩ | ⟨rfl, rfl⟩ <;>
  simp [GPIO_setupPinDirection, PORTA_ID, PORTB_ID, PORTC_ID, PORTD_ID, PortName.PORT,
    PortName.DDR]

theorem GPIO_readPin_of_port (p b : Nat) (s : Regs) (q : PortName)
    (h : portOfId p = some q) :
    GPIO_readPin p b s = (GET_BIT (s q.PIN) b % 256, s) := by
  rcases portOfId_cases p q h with ⟨rfl, rfl⟩ | ⟨rfl, rfl⟩ | ⟨rfl, rfl⟩ | ⟨rfl, rfl⟩ <;>
  simp [GPIO_readPin, PORTA_ID, PORTB_ID, PORTC_ID, PORTD_ID, PortName.PIN]

theorem GPIO_tooglePin_of_port (p b : Nat) (s : Regs) (q : PortName)
    (h : portOfId p = some q) :
    GPIO_tooglePin p b s = s.write q.PORT (TOGGLE_BIT (s q.PORT) b) := by
  rcases portOfId_cases p q h with ⟨rfl, rfl⟩ | ⟨rfl, rfl⟩ | ⟨rfl, rfl⟩ | ⟨rfl, rfl⟩ <;>
  simp [GPIO_tooglePin, PORTA_ID, PORTB_ID, PORTC_ID, PORTD_ID, PortName.PORT]

theorem testBit_TOGGLE_BIT (r b j : Nat) (hj : j < 8) :
    (TOGGLE_BIT r b).testBit j = (r.testBit j ^^ decide (j = b)) := by
  have h256 : (256 : Nat) = 2 ^ 8 := by norm_num
  unfold TOGGLE_BIT
  rw [h256, Nat.testBit_mod_two_pow, Nat.testBit_xor, Nat.one_shiftLeft, Nat.testBit_two_pow]
  simp [hj, eq_comm]

theorem TOGGLE_BIT_lt (r b : Nat) : TOGGLE_BIT r b < 256 := Nat.mod_lt _ (by norm_num)

theorem TOGGLE_BIT_TOGGLE_BIT (r b : Nat) (hr : r < 256) :
    TOGGLE_BIT (TOGGLE_BIT r b) b = r := by
  apply Nat.eq_of_testBit_eq
  intro j
  by_cases hj : j < 8
  · rw [testBit_TOGGLE_BIT _ _ _ hj, testBit_TOGGLE_BIT _ _ _ hj]
    cases r.testBit j <;> cases decide (j = b) <;> rfl
  · rw [testBit_eq_false_of_lt_256 _ _ (TOGGLE_BIT_lt _ _) (by omega),
      testBit_eq_false_of_lt_256 _ _ hr (by omega)]

/-! ## Port-level driver -/

/-- C21: for every port identifier `p ≥ 4` and every pin and value argument,
`GPIO_setupPortDirection`, `GPIO_writePort`, `GPIO_setupPinDirection`,
`GPIO_writePin` and `GPIO_tooglePin` leave the whole register file unchanged,
and `GPIO_readPin(p, pin)` returns 0. -/
theorem port_level_invalid_port_noop (p pin v : Nat) (s : Regs) (hp : 4 ≤ p) :
    GPIO_setupPortDirection p v s = s ∧ GPIO_writePort p v s = s ∧
    GPIO_setupPinDirection p pin v s = s ∧ GPIO_writePin p pin v s = s ∧
    GPIO_tooglePin p pin s = s ∧ GPIO_readPin p pin s = (0, s) := by
  have h0 : p ≠ 0 := by omega
  have h1 : p ≠ 1 := by omega
  have h2 : p ≠ 2 := by omega
  have h3 : p ≠ 3 := by omega
  have hg : p ≥ NUM_OF_PORTS := hp
  refine ⟨?_, ?_, ?_, ?_, ?_, ?_⟩ <;>
  simp [GPIO_setupPortDirection, GPIO_writePort, GPIO_setupPinDirection, GPIO_writePin,
    GPIO_tooglePin, GPIO_readPin, hg, h0, h1, h2, h3, PORTA_ID, PORTB_ID, PORTC_ID, PORTD_ID]

theorem port_level_invalid_port_noop_witness :
    4 ≤ 4 ∧
    (GPIO_setupPortDirection 4 0xFF (fun _ => 0x21) = (fun _ => 0x21) ∧
    GPIO_writePort 4 0xFF (fun _ => 0x21) = (fun _ => 0x21) ∧
    GPIO_setupPinDirection 4 7 0xFF (fun _ => 0x21) = (fun _ => 0x21) ∧
    GPIO_writePin 4 7 0xFF (fun _ => 0x21) = (fun _ => 0x21) ∧
    GPIO_tooglePin 4 7 (fun _ => 0x21) = (fun _ => 0x21) ∧
    GPIO_readPin 4 7 (fun _ => 0x21) = (0, (fun _ => 0x21))) :=
  ⟨by decide, port_level_invalid_port_noop 4 7 0xFF (fun _ => 0x21) (by decide)⟩

/-- C25: for every port `p` in 0..3, every pin `b` in 0..7 and every register
file of bytes, `GPIO_tooglePin(p, b)` inverts bit `b` of the output register of
port `p`, leaves every other bit of it and every other register as before, and
applied twice gives back the register file it started from. -/
theorem GPIO_tooglePin_inverts (p b : Nat) (s : Regs) (hp : p < 4) (hb : b < 8)
    (hs : ∀ r, s r < 256) :
    ∃ q, portOfId p = some q ∧
      (GPIO_tooglePin p b s q.PORT).testBit b = !(s q.PORT).testBit b ∧
      (∀ j, j ≠ b → (GPIO_tooglePin p b s q.PORT).testBit j = (s q.PORT).testBit j) ∧
      (∀ r, r ≠ q.PORT → GPIO_tooglePin p b s r = s r) ∧
      GPIO_tooglePin p b (GPIO_tooglePin p b s) = s := by
  obtain ⟨q, hq⟩ := portOfId_of_lt p hp
  refine ⟨q, hq, ?_, ?_, ?_, ?_⟩
  · rw [GPIO_tooglePin_of_port p b s q hq, Regs.write_same, testBit_TOGGLE_BIT _ _ _ hb]
    simp
  · intro j hj
    rw [GPIO_tooglePin_of_port p b s q hq, Regs.write_same]
    by_cases hj8 : j < 8
    · rw [testBit_TOGGLE_BIT _ _ _ hj8]
      simp [hj]
    · rw [testBit_eq_false_of_lt_256 _ _ (TOGGLE_BIT_lt _ _) (by omega),
        testBit_eq_false_of_lt_256 _ _ (hs _) (by omega)]
  · intro r hr
    rw [GPIO_tooglePin_of_port p b s q hq, Regs.write_other _ _ _ _ hr]
  · rw [GPIO_tooglePin_of_port p b _ q hq, GPIO_tooglePin_of_port p b s q hq, Regs.write_same]
    funext r
    by_cases hr : r = q.PORT
    · subst hr
      rw [Regs.write_same, TOGGLE_BIT_TOGGLE_BIT _ _ (hs _)]
    · rw [Regs.write_other _ _ _ _ hr, Regs.write_other _ _ _ _ hr]

theorem GPIO_tooglePin_inverts_witness :
    (1 < 4 ∧ 3 < 8 ∧ ∀ r, (fun _ => 0xF0 : Regs) r < 256) ∧
    ∃ q, portOfId 1 = some q ∧
      (GPIO_tooglePin 1 3 (fun _ => 0xF0) q.PORT).testBit 3
        = !((fun _ => 0xF0 : Regs) q.PORT).testBit 3 ∧
      (∀ j, j ≠ 3 → (GPIO_tooglePin 1 3 (fun _ => 0xF0) q.PORT).testBit j
        = ((fun _ => 0xF0 : Regs) q.PORT).testBit j) ∧
      (∀ r, r ≠ q.PORT → GPIO_tooglePin 1 3 (fun _ => 0xF0) r = (fun _ => 0xF0 : Regs) r) ∧
      GPIO_tooglePin 1 3 (GPIO_tooglePin 1 3 (fun _ => 0xF0)) = (fun _ => 0xF0) :=
  ⟨⟨by decide, by decide, fun _ => by norm_num⟩,
    GPIO_tooglePin_inverts 1 3 (fun _ => 0xF0) (by decide) (by decide) (fun _ => by norm_num)⟩

/-- C27: the indexed driver agrees with the port-level driver: for every
identifier below 32, every register file, every value among LOW and HIGH and
every direction argument, `GPIO_ARR_setPinState(id, v)` yields the register
file of `GPIO_writePin(id / 8, id % 8, v)`, `GPIO_ARR_setPinDirection(id, d)`
that of `GPIO_setupPinDirection(id / 8, id % 8, d)`, and `GPIO_ARR_readPin(id)`
returns what `GPIO_readPin(id / 8, id % 8)` returns. -/
theorem GPIO_ARR_agrees_with_port_level (id v d : Nat) (s : Regs) (h : id < 32)
    (hv : v = LOW ∨ v = HIGH) :
    GPIO_ARR_setPinState id v s = some (GPIO_writePin (id / 8) (id % 8) v s) ∧
    GPIO_ARR_setPinDirection id d s = some (GPIO_setupPinDirection (id / 8) (id % 8) d s) ∧
    GPIO_ARR_readPin id s = some (GPIO_readPin (id / 8) (id % 8) s) := by
  obtain ⟨q, hq, he⟩ := pgm_read_ioPins_of_lt id h
  have hg : ¬ id > NUM_OF_PINS := by simp [NUM_OF_PINS]; omega
  refine ⟨?_, ?_, ?_⟩
  · rw [GPIO_ARR_setPinState_of_entry id v s q _ hg he, GPIO_writePin_of_port _ _ _ _ q hq]
    rcases hv with rfl | rfl <;> simp [LOW, HIGH]
  · rw [GPIO_ARR_setPinDirection_of_entry id d s q _ hg he,
      GPIO_setupPinDirection_of_port _ _ _ _ q hq]
  · rw [GPIO_ARR_readPin_of_entry id s q _ hg he, GPIO_readPin_of_port _ _ _ q hq]

theorem GPIO_ARR_agrees_with_port_level_witness :
    (27 < 32 ∧ (HIGH = LOW ∨ HIGH = HIGH)) ∧
    GPIO_ARR_setPinState 27 HIGH (fun _ => 0x42)
      = some (GPIO_writePin (27 / 8) (27 % 8) HIGH (fun _ => 0x42)) ∧
    GPIO_ARR_setPinDirection 27 PIN_INPUT_PULLUP (fun _ => 0x42)
      = some (GPIO_setupPinDirection (27 / 8) (27 % 8) PIN_INPUT_PULLUP (fun _ => 0x42)) ∧
    GPIO_ARR_readPin 27 (fun _ => 0x42) = some (GPIO_readPin (27 / 8) (27 % 8) (fun _ => 0x42)) :=
  ⟨⟨by decide, Or.inr rfl⟩,
    GPIO_ARR_agrees_with_port_level 27 HIGH PIN_INPUT_PULLUP (fun _ => 0x42) (by decide)
      (Or.inr rfl)⟩

/-! ## Effect of one indexed pin write -/

/-- What `GPIO_ARR_setPinState` does to the register file, given the table
entry of the pin. -/
theorem GPIO_ARR_setPinState_effect (id v : Nat) (s : Regs) (p : PortName) (b : Nat)
    (hb : b < 8) (hg : ¬ id > NUM_OF_PINS) (he : pgm_read_ioPins id = some (GPIO_PIN p b)) :
    ∃ s1, GPIO_ARR_setPinState id v s = some s1 ∧
      (s1 p.PORT).testBit b = decide (v = HIGH) ∧
      (∀ j, j < 8 → j ≠ b → (s1 p.PORT).testBit j = (s p.PORT).testBit j) ∧
      (∀ r, r ≠ p.PORT → s1 r = s r) := by
  rw [GPIO_ARR_setPinState_of_entry id v s p b hg he]
  by_cases hv : v = HIGH
  · refine ⟨_, rfl, ?_, ?_, ?_⟩
    · simp [hv, Regs.write_same, testBit_SET_BIT _ _ _ hb]
    · intro j hj hjb
      simp [hv, Regs.write_same, testBit_SET_BIT _ _ _ hj, hjb]
    · intro r hr
      simp [hv, Regs.write_other _ _ _ _ hr]
  · refine ⟨_, rfl, ?_, ?_, ?_⟩
    · simp [hv, Regs.write_same, testBit_CLEAR_BIT _ _ _ hb]
    · intro j hj hjb
      simp [hv, Regs.write_same, testBit_CLEAR_BIT _ _ _ hj, hjb]
    · intro r hr
      simp [hv, Regs.write_other _ _ _ _ hr]

/-- The `switch` statement of `DcMotor_rotate` completes, and what it does to
the register file. -/
theorem DcMotor_rotate_switch_effect (a_state : Nat) (s : Regs)
    (hst : a_state = CW ∨ a_state = ACW ∨ a_state = STOP) :
    ∃ s1, DcMotor_rotate_switch a_state s = some s1 ∧
      (s1 .PORTB).testBit 0 = decide (a_state = CW) ∧
      (s1 .PORTB).testBit 1 = decide (a_state = ACW) ∧
      (∀ j, 2 ≤ j → j < 8 → (s1 .PORTB).testBit j = (s .PORTB).testBit j) ∧
      (∀ r, r ≠ .PORTB → s1 r = s r) := by
  obtain ⟨e1, e2, g1, g2⟩ := pgm_read_ioPins_DCMOTOR
  rcases hst with rfl | rfl | rfl
  · obtain ⟨t1, h1, a1, b1, c1⟩ :=
      GPIO_ARR_setPinState_effect DCMOTOR_IN_1 LOGIC_HIGH s .B 0 (by norm_num) g1 e1
    obtain ⟨t2, h2, a2, b2, c2⟩ :=
      GPIO_ARR_setPinState_effect DCMOTOR_IN_2 LOGIC_LOW t1 .B 1 (by norm_num) g2 e2
    refine ⟨t2, ?_, ?_, ?_, ?_, ?_⟩
    · simp [DcMotor_rotate_switch, h1, h2]
    · rw [show (Reg.PORTB) = PortName.B.PORT from rfl, b2 0 (by norm_num) (by norm_num), a1]
      decide
    · rw [show (Reg.PORTB) = PortName.B.PORT from rfl, a2]
      decide
    · intro j hj2 hj8
      rw [show (Reg.PORTB) = PortName.B.PORT from rfl, b2 j hj8 (by omega), b1 j hj8 (by omega)]
    · intro r hr
      rw [c2 r hr, c1 r hr]
  · obtain ⟨t1, h1, a1, b1, c1⟩ :=
      GPIO_ARR_setPinState_effect DCMOTOR_IN_2 LOGIC_HIGH s .B 1 (by norm_num) g2 e2
    obtain ⟨t2, h2, a2, b2, c2⟩ :=
      GPIO_ARR_setPinState_effect DCMOTOR_IN_1 LOGIC_LOW t1 .B 0 (by norm_num) g1 e1
    refine ⟨t2, ?_, ?_, ?_, ?_, ?_⟩
    · simp [DcMotor_rotate_switch, h1, h2, CW, ACW]
    · rw [show (Reg.PORTB) = PortName.B.PORT from rfl, a2]
      decide
    · rw [show (Reg.PORTB) = PortName.B.PORT from rfl, b2 1 (by norm_num) (by norm_num), a1]
      decide
    · intro j hj2 hj8
      rw [show (Reg.PORTB) = PortName.B.PORT from rfl, b2 j hj8 (by omega), b1 j hj8 (by omega)]
    · intro r hr
      rw [c2 r hr, c1 r hr]
  · obtain ⟨t1, h1, a1, b1, c1⟩ :=
      GPIO_ARR_setPinState_effect DCMOTOR_IN_1 LOGIC_LOW s .B 0 (by norm_num) g1 e1
    obtain ⟨t2, h2, a2, b2, c2⟩ :=
      GPIO_ARR_setPinState_effect DCMOTOR_IN_2 LOGIC_LOW t1 .B 1 (by norm_num) g2 e2
    refine ⟨t2, ?_, ?_, ?_, ?_, ?_⟩
    · simp [DcMotor_rotate_switch, h1, h2, CW, ACW, STOP]
    · rw [show (Reg.PORTB) = PortName.B.PORT from rfl, b2 0 (by norm_num) (by norm_num), a1]
      decide
    · rw [show (Reg.PORTB) = PortName.B.PORT from rfl, a2]
      decide
    · intro j hj2 hj8
      rw [show (Reg.PORTB) = PortName.B.PORT from rfl, b2 j hj8 (by omega), b1 j hj8 (by omega)]
    · intro r hr
      rw [c2 r hr, c1 r hr]

/-- The function `DcMotor_rotate` is its `switch` statement followed by the
computation of the duty and the store of the duty into OCR0. -/
theorem DcMotor_rotate_eq (a_state a_speed : Nat) (s : Regs) :
    DcMotor_rotate a_state a_speed s =
      (DcMotor_rotate_switch a_state s).bind fun s1 =>
        ((MAP (a_speed : Int) 0 100 0 255).map uint8_of_int).bind fun l_duty =>
          some (Timer0_setDutyCycle l_duty s1) := by
  unfold DcMotor_rotate DcMotor_rotate_switch
  split_ifs <;> rfl

/-- The duty computation of `DcMotor_rotate` is defined for speeds 0..128. -/
theorem MAP_speed_of_le_128 (x : Nat) (hx : x ≤ 128) :
    MAP (x : Int) 0 100 0 255 = some ((x * 255 / 100 : Nat) : Int) := by
  have hmap := MAP_from_zero x 100 255 (by norm_num) (by norm_num) (by norm_num) (by omega)
    (by omega)
  simpa only [Nat.cast_ofNat] using hmap

/-! ## DC motor -/

/-- For the three states and every speed up to 128, `DcMotor_rotate` returns,
and after the call the direction pins PB0 (IN1) and PB1 (IN2) are as the state
alone dictates: CW gives 1, 0; ACW gives 0, 1; STOP gives 0, 0; the two pins
are never both high and no other bit of PORTB has changed. -/
theorem DcMotor_rotate_pins_in_range (a_state a_speed : Nat) (s : Regs)
    (hst : a_state = CW ∨ a_state = ACW ∨ a_state = STOP) (hsp : a_speed ≤ 128) :
    ∃ s2, DcMotor_rotate a_state a_speed s = some s2 ∧
      (a_state = CW → (s2 .PORTB).testBit 0 = true ∧ (s2 .PORTB).testBit 1 = false) ∧
      (a_state = ACW → (s2 .PORTB).testBit 0 = false ∧ (s2 .PORTB).testBit 1 = true) ∧
      (a_state = STOP → (s2 .PORTB).testBit 0 = false ∧ (s2 .PORTB).testBit 1 = false) ∧
      ¬ ((s2 .PORTB).testBit 0 = true ∧ (s2 .PORTB).testBit 1 = true) ∧
      (∀ j, 2 ≤ j → j < 8 → (s2 .PORTB).testBit j = (s .PORTB).testBit j) := by
  obtain ⟨s1, h1, a0, a1, afr, _⟩ := DcMotor_rotate_switch_effect a_state s hst
  have hmap := MAP_speed_of_le_128 a_speed hsp
  have hcall : DcMotor_rotate a_state a_speed s =
      some (Timer0_setDutyCycle (uint8_of_int ((a_speed * 255 / 100 : Nat) : Int)) s1) := by
    rw [DcMotor_rotate_eq, h1, hmap]
    rfl
  have hport : Timer0_setDutyCycle (uint8_of_int ((a_speed * 255 / 100 : Nat) : Int)) s1 .PORTB
      = s1 .PORTB := Regs.write_other _ _ _ _ (by decide)
  refine ⟨_, hcall, ?_, ?_, ?_, ?_, ?_⟩
  · rintro rfl; rw [hport, a0, a1]; decide
  · rintro rfl; rw [hport, a0, a1]; decide
  · rintro rfl; rw [hport, a0, a1]; decide
  · rw [hport, a0, a1]
    rcases hst with rfl | rfl | rfl <;> decide
  · intro j h2 h8
    rw [hport]
    exact afr j h2 h8

/-- C30 (counterexample): the duty is not monotone beyond speed 100: speed 100
leaves 255 in OCR0, and speed 101 gives 101 * 255 / 100 = 257, which stored
into the `uint8` duty leaves 1 in OCR0. -/
theorem DcMotor_rotate_duty_drops_at_101 :
    (100 ≤ 101 ∧ 101 ≤ 255) ∧
    (DcMotor_rotate CW 100 Regs.zero).map (fun s => s .OCR0) = some 255 ∧
    (DcMotor_rotate CW 101 Regs.zero).map (fun s => s .OCR0) = some 1 ∧
    ¬ (255 ≤ 1) := by decide

/-- C30 (amended): the motor duty is monotone in the requested speed over the
speeds 0..100: for every two speeds `x1 ≤ x2 ≤ 100`, every state and every
register file, `DcMotor_rotate` returns for both, leaving floor(x * 255 / 100)
in OCR0, and the duty for `x1` is at most the duty for `x2`. -/
theorem DcMotor_rotate_duty_monotone (a_state x1 x2 : Nat) (s : Regs)
    (h12 : x1 ≤ x2) (h2 : x2 ≤ 100) :
    ∃ t1 t2, DcMotor_rotate a_state x1 s = some t1 ∧ DcMotor_rotate a_state x2 s = some t2 ∧
      t1 .OCR0 = x1 * 255 / 100 ∧ t2 .OCR0 = x2 * 255 / 100 ∧ t1 .OCR0 ≤ t2 .OCR0 := by
  obtain ⟨u1, hu1, _⟩ :=
    DcMotor_rotate_of_MAP a_state x1 s _ (MAP_speed_of_le_128 x1 (by omega))
  obtain ⟨u2, hu2, _⟩ :=
    DcMotor_rotate_of_MAP a_state x2 s _ (MAP_speed_of_le_128 x2 (by omega))
  have e1 : Timer0_setDutyCycle (uint8_of_int ((x1 * 255 / 100 : Nat) : Int)) u1 .OCR0
      = x1 * 255 / 100 := by
    rw [Timer0_setDutyCycle, Regs.write_same, uint8_of_int_natCast _ (by omega),
      Nat.mod_eq_of_lt (by omega)]
  have e2 : Timer0_setDutyCycle (uint8_of_int ((x2 * 255 / 100 : Nat) : Int)) u2 .OCR0
      = x2 * 255 / 100 := by
    rw [Timer0_setDutyCycle, Regs.write_same, uint8_of_int_natCast _ (by omega),
      Nat.mod_eq_of_lt (by omega)]
  refine ⟨_, _, hu1, hu2, e1, e2, ?_⟩
  rw [e1, e2]
  exact Nat.div_le_div_right (Nat.mul_le_mul_right _ h12)

theorem DcMotor_rotate_duty_monotone_witness :
    (25 ≤ 75 ∧ 75 ≤ 100) ∧
    ∃ t1 t2, DcMotor_rotate STOP 25 Regs.zero = some t1 ∧
      DcMotor_rotate STOP 75 Regs.zero = some t2 ∧
      t1 .OCR0 = 25 * 255 / 100 ∧ t2 .OCR0 = 75 * 255 / 100 ∧ t1 .OCR0 ≤ t2 .OCR0 :=
  ⟨by decide, DcMotor_rotate_duty_monotone STOP 25 75 Regs.zero (by decide) (by decide)⟩

/-! ## LEDs, buzzer and display cursor -/

theorem pgm_read_ioPins_LED (id : Nat) (hid : id ≤ 2) :
    ∃ pin, LED_pins[id]? = some pin ∧ pin = GPIO_PINS_ARR.GPIO_PB5.val + id ∧
      pgm_read_ioPins pin = some (GPIO_PIN .B (5 + id)) ∧ ¬ pin > NUM_OF_PINS := by
  interval_cases id <;> exact ⟨_, rfl, rfl, rfl, by decide⟩

/-- C23: for both settings of the polarity switch and every LED 0..2, `LED_on`
drives the pin of that LED (PB5, PB6, PB7) to the active level of the polarity
(high under positive logic, low under negative logic) and `LED_off` to the
opposite level, no other bit of PORTB and no other register being changed; the
same holds for `Buzzer_on` and `Buzzer_off` on PD3. -/
theorem LED_and_Buzzer_polarity (positive : Bool) (id : Nat) (s : Regs) (hid : id ≤ 2) :
    (∃ sOn sOff, LED_on positive id s = some sOn ∧ LED_off positive id s = some sOff ∧
      LED_pins[id]? = some (GPIO_PINS_ARR.GPIO_PB5.val + id) ∧
      (sOn .PORTB).testBit (5 + id) = positive ∧
      (sOff .PORTB).testBit (5 + id) = !positive ∧
      (∀ j, j < 8 → j ≠ 5 + id →
        (sOn .PORTB).testBit j = (s .PORTB).testBit j ∧
        (sOff .PORTB).testBit j = (s .PORTB).testBit j) ∧
      (∀ r, r ≠ .PORTB → sOn r = s r ∧ sOff r = s r)) ∧
    (∃ bOn bOff, Buzzer_on positive s = some bOn ∧ Buzzer_off positive s = some bOff ∧
      (bOn .PORTD).testBit 3 = positive ∧
      (bOff .PORTD).testBit 3 = !positive ∧
      (∀ j, j < 8 → j ≠ 3 →
        (bOn .PORTD).testBit j = (s .PORTD).testBit j ∧
        (bOff .PORTD).testBit j = (s .PORTD).testBit j) ∧
      (∀ r, r ≠ .PORTD → bOn r = s r ∧ bOff r = s r)) := by
  obtain ⟨pin, hpin, hval, he, hg⟩ := pgm_read_ioPins_LED id hid
  have hb : 5 + id < 8 := by omega
  have heB : pgm_read_ioPins BUZZER_PIN = some (GPIO_PIN .D 3) := rfl
  have hgB : ¬ BUZZER_PIN > NUM_OF_PINS := by decide
  obtain ⟨sH, hH, aH, bH, cH⟩ := GPIO_ARR_setPinState_effect pin LOGIC_HIGH s .B _ hb hg he
  obtain ⟨sL, hL, aL, bL, cL⟩ := GPIO_ARR_setPinState_effect pin LOGIC_LOW s .B _ hb hg he
  obtain ⟨tH, gH, dH, eH, fH⟩ :=
    GPIO_ARR_setPinState_effect BUZZER_PIN LOGIC_HIGH s .D 3 (by norm_num) hgB heB
  obtain ⟨tL, gL, dL, eL, fL⟩ :=
    GPIO_ARR_setPinState_effect BUZZER_PIN LOGIC_LOW s .D 3 (by norm_num) hgB heB
  have hHigh : decide (LOGIC_HIGH = HIGH) = true := by decide
  have hLow : decide (LOGIC_LOW = HIGH) = false := by decide
  rw [hHigh] at aH dH
  rw [hLow] at aL dL
  cases positive
  · refine ⟨⟨sL, sH, ?_, ?_, hval ▸ hpin, aL, aH, fun j h1 h2 => ⟨bL j h1 h2, bH j h1 h2⟩,
      fun r hr => ⟨cL r hr, cH r hr⟩⟩,
      ⟨tL, tH, ?_, ?_, dL, dH, fun j h1 h2 => ⟨eL j h1 h2, eH j h1 h2⟩,
      fun r hr => ⟨fL r hr, fH r hr⟩⟩⟩
    · simp [LED_on, hpin, hL]
    · simp [LED_off, hpin, hH]
    · simp [Buzzer_on, gL]
    · simp [Buzzer_off, gH]
  · refine ⟨⟨sH, sL, ?_, ?_, hval ▸ hpin, aH, aL, fun j h1 h2 => ⟨bH j h1 h2, bL j h1 h2⟩,
      fun r hr => ⟨cH r hr, cL r hr⟩⟩,
      ⟨tH, tL, ?_, ?_, dH, dL, fun j h1 h2 => ⟨eH j h1 h2, eL j h1 h2⟩,
      fun r hr => ⟨fH r hr, fL r hr⟩⟩⟩
    · simp [LED_on, hpin, hH]
    · simp [LED_off, hpin, hL]
    · simp [Buzzer_on, gH]
    · simp [Buzzer_off, gL]

theorem LED_and_Buzzer_polarity_witness :
    (1 : Nat) ≤ 2 ∧
    (∃ sOn sOff, LED_on false 1 (fun _ => 0xFF) = some sOn ∧
      LED_off false 1 (fun _ => 0xFF) = some sOff ∧
      (sOn .PORTB).testBit (5 + 1) = false ∧ (sOff .PORTB).testBit (5 + 1) = !false) ∧
    (∃ bOn bOff, Buzzer_on false (fun _ => 0xFF) = some bOn ∧
      Buzzer_off false (fun _ => 0xFF) = some bOff ∧
      (bOn .PORTD).testBit 3 = false ∧ (bOff .PORTD).testBit 3 = !false) := by
  obtain ⟨⟨sOn, sOff, h1, h2, _, h3, h4, _⟩, ⟨bOn, bOff, g1, g2, g3, g4, _⟩⟩ :=
    LED_and_Buzzer_polarity false 1 (fun _ => 0xFF) (by decide)
  exact ⟨by decide, ⟨sOn, sOff, h1, h2, h3, h4⟩, ⟨bOn, bOff, g1, g2, g3, g4⟩⟩

theorem LCD_sendCommand_some (c : Nat) (w : LCD_World) :
    ∃ r, LCD_sendCommand c w = some ⟨r, w.transfers ++ [.command (c % 256)]⟩ := by
  have eRS : pgm_read_ioPins LCD_RS = some (GPIO_PIN .D 0) := rfl
  have eE : pgm_read_ioPins LCD_E = some (GPIO_PIN .D 1) := rfl
  have gRS : ¬ LCD_RS > NUM_OF_PINS := by decide
  have gE : ¬ LCD_E > NUM_OF_PINS := by decide
  unfold LCD_sendCommand
  simp only [GPIO_ARR_setPinState_of_entry _ _ _ _ _ gRS eRS,
    GPIO_ARR_setPinState_of_entry _ _ _ _ _ gE eE, Option.bind_eq_bind, Option.some_bind]
  exact ⟨_, rfl⟩

theorem lor_0x80_of_lt (x : Nat) (hx : x < 128) : x ||| 0x80 = x + 128 := by
  interval_cases x <;> rfl

/-- C26: for every row 0..3 and every column 0..15, `LCD_moveCursor` returns
and has sent exactly one command, `(column + offset) | 0x80`, the offset being
0x00, 0x40, 0x10 and 0x50 for the rows 0, 1, 2 and 3; and two positions that
give the same command are the same position. -/
theorem LCD_moveCursor_command (row col : Nat) (w : LCD_World) (hrow : row ≤ 3)
    (hcol : col ≤ 15) :
    (∃ w1, LCD_moveCursor row col w = some w1 ∧
      w1.transfers = w.transfers ++
        [.command ((col + ([0x00, 0x40, 0x10, 0x50] : List Nat).getD row 0) ||| 0x80)]) ∧
    (∀ row2 col2, row2 ≤ 3 → col2 ≤ 15 →
      (col + ([0x00, 0x40, 0x10, 0x50] : List Nat).getD row 0) ||| 0x80 =
        (col2 + ([0x00, 0x40, 0x10, 0x50] : List Nat).getD row2 0) ||| 0x80 →
      row = row2 ∧ col = col2) := by
  refine ⟨?_, ?_⟩
  · have key : ∀ x, x < 128 → ∃ w1, LCD_sendCommand (x % 256 ||| LCD_SET_CURSOR_LOCATION) w
        = some w1 ∧ w1.transfers = w.transfers ++ [.command (x ||| 0x80)] := by
      intro x hx
      obtain ⟨r, hr⟩ := LCD_sendCommand_some (x % 256 ||| LCD_SET_CURSOR_LOCATION) w
      refine ⟨_, hr, ?_⟩
      have h1 : x % 256 = x := Nat.mod_eq_of_lt (by omega)
      have h2 : (x ||| 0x80) % 256 = x ||| 0x80 := by
        rw [lor_0x80_of_lt x hx]
        exact Nat.mod_eq_of_lt (by omega)
      simp only [h1, LCD_SET_CURSOR_LOCATION, h2]
    interval_cases row
    · obtain ⟨w1, h1, h2⟩ := key (col + 0x00) (by omega)
      exact ⟨w1, by simpa [LCD_moveCursor] using h1, h2⟩
    · obtain ⟨w1, h1, h2⟩ := key (col + 0x40) (by omega)
      exact ⟨w1, by simpa [LCD_moveCursor, LCD_ROW_1_OFFSET] using h1, h2⟩
    · obtain ⟨w1, h1, h2⟩ := key (col + 0x10) (by omega)
      exact ⟨w1, by simpa [LCD_moveCursor, LCD_ROW_2_OFFSET] using h1, h2⟩
    · obtain ⟨w1, h1, h2⟩ := key (col + 0x50) (by omega)
      exact ⟨w1, by simpa [LCD_moveCursor, LCD_ROW_3_OFFSET] using h1, h2⟩
  · intro row2 col2 hrow2 hcol2 heq
    have b1 : col + ([0x00, 0x40, 0x10, 0x50] : List Nat).getD row 0 < 128 := by
      interval_cases row <;> simp <;> omega
    have b2 : col2 + ([0x00, 0x40, 0x10, 0x50] : List Nat).getD row2 0 < 128 := by
      interval_cases row2 <;> simp <;> omega
    rw [lor_0x80_of_lt _ b1, lor_0x80_of_lt _ b2] at heq
    interval_cases row <;> interval_cases row2 <;> simp at heq ⊢ <;> omega

theorem LCD_moveCursor_command_witness :
    ((2 : Nat) ≤ 3 ∧ (5 : Nat) ≤ 15) ∧
    (∃ w1, LCD_moveCursor 2 5 ⟨Regs.zero, []⟩ = some w1 ∧
      w1.transfers = (⟨Regs.zero, []⟩ : LCD_World).transfers ++
        [.command ((5 + ([0x00, 0x40, 0x10, 0x50] : List Nat).getD 2 0) ||| 0x80)]) ∧
    (∀ row2 col2, row2 ≤ 3 → col2 ≤ 15 →
      (5 + ([0x00, 0x40, 0x10, 0x50] : List Nat).getD 2 0) ||| 0x80 =
        (col2 + ([0x00, 0x40, 0x10, 0x50] : List Nat).getD row2 0) ||| 0x80 →
      2 = row2 ∧ 5 = col2) :=
  ⟨by decide, LCD_moveCursor_command 2 5 ⟨Regs.zero, []⟩ (by decide) (by decide)⟩

/-! ## Timer0 control register and prior state -/

theorem Pushbutton_level_congr (b1 b2 : pushbutton) (s : Regs) (h : b1.pin = b2.pin) :
    Pushbutton_level b1 s = Pushbutton_level b2 s := by
  unfold Pushbutton_level
  rw [h]

/-- One call of `Pushbutton_pressed` on a button whose pin is one of the 32
pins: it returns, and what it returns. -/
theorem Pushbutton_pressed_step (b : pushbutton) (s : Regs) (hpin : b.pin < 32) :
    ∃ v b1, Pushbutton_pressed b s = some (v, b1, s) ∧ b1.pin = b.pin ∧
      v = (if Pushbutton_level b s = false ∧ b.state = 0 then 1 else 0) ∧
      b1.state = (if Pushbutton_level b s = true then 0
                  else if b.state = 0 then 1 else b.state) := by
  obtain ⟨q, _, he⟩ := pgm_read_ioPins_of_lt b.pin hpin
  have hg : ¬ b.pin > NUM_OF_PINS := by simp [NUM_OF_PINS]; omega
  have hread := GPIO_ARR_readPin_of_entry b.pin s q _ hg he
  unfold Pushbutton_pressed Pushbutton_level
  rw [hread]
  by_cases h0 : GET_BIT (s q.PIN) (b.pin % 8) % 256 = 0 <;>
  by_cases hs : b.state = 0 <;>
  simp [h0, hs] <;>
  exact ⟨_, _, ⟨rfl, rfl⟩, rfl, rfl, rfl⟩

theorem highToLowTransitions_cons_cons (a b : Bool) (rest : List Bool) :
    highToLowTransitions (a :: b :: rest) =
      (if a && !b then 1 else 0) + highToLowTransitions (b :: rest) := rfl

/-- Successive calls of `Pushbutton_pressed` from a state 0 or 1: all return,
each value is 0 or 1, and the number of values 1 is the number of high-to-low
transitions of the readings, the level before the first reading being taken as
high exactly when the state is 0. -/
theorem Pushbutton_poll_spec (seq : List Regs) :
    ∀ (b : pushbutton), b.pin < 32 → (b.state = 0 ∨ b.state = 1) →
      ∃ vs bN, Pushbutton_poll b seq = some (vs, bN) ∧ vs.length = seq.length ∧
        (∀ v ∈ vs, v = 0 ∨ v = 1) ∧
        vs.count 1 =
          highToLowTransitions (decide (b.state = 0) :: seq.map (Pushbutton_level b)) ∧
        bN.pin = b.pin ∧ (bN.state = 0 ∨ bN.state = 1) ∧
        (∀ sl, seq.getLast? = some sl → (bN.state = 1 ↔ Pushbutton_level b sl = false)) := by
  induction seq with
  | nil =>
    intro b _ hst
    exact ⟨[], b, rfl, rfl, by simp, by simp [highToLowTransitions], rfl, hst, by simp⟩
  | cons s rest ih =>
    intro b hpin hst
    obtain ⟨v, b1, hstep, hpin1, hv, hst1⟩ := Pushbutton_pressed_step b s hpin
    have hst1' : b1.state = 0 ∨ b1.state = 1 := by
      rw [hst1]
      rcases hst with h | h <;> by_cases hl : Pushbutton_level b s = true <;> simp [h, hl]
    have hlev : decide (b1.state = 0) = Pushbutton_level b s := by
      rw [hst1]
      rcases hst with h | h <;> by_cases hl : Pushbutton_level b s = true <;> simp [h, hl]
    obtain ⟨vs, bN, hpoll, hlen, h01, hcount, hpinN, hstN, hlast⟩ :=
      ih b1 (by omega) hst1'
    have hmap : rest.map (Pushbutton_level b1) = rest.map (Pushbutton_level b) := by
      apply List.map_congr_left
      intro x _
      exact Pushbutton_level_congr b1 b x hpin1
    refine ⟨v :: vs, bN, ?_, by simp [hlen], ?_, ?_, by omega, hstN, ?_⟩
    · simp [Pushbutton_poll, hstep, hpoll]
    · intro x hx
      rcases List.mem_cons.mp hx with rfl | hx
      · rw [hv]
        by_cases hc : Pushbutton_level b s = false ∧ b.state = 0 <;> simp [hc]
      · exact h01 x hx
    · rw [List.map_cons, highToLowTransitions_cons_cons, List.count_cons, hcount, hlev, hmap,
        hv]
      rcases hst with h | h <;> by_cases hl : Pushbutton_level b s = true <;>
        (simp [h, hl]; try omega)
    · intro sl hsl
      cases rest with
      | nil =>
        simp only [List.getLast?_singleton, Option.some.injEq] at hsl
        subst hsl
        simp only [Pushbutton_poll, Option.some.injEq, Prod.mk.injEq] at hpoll
        rw [← hpoll.2, hst1]
        rcases hst with h | h <;> by_cases hl : Pushbutton_level b s = true <;> simp [h, hl]
      | cons r rest2 =>
        rw [List.getLast?_cons_cons] at hsl
        rw [hlast sl hsl, Pushbutton_level_congr b1 b sl hpin1]

theorem Pushbutton_init_spec (b0 : pushbutton) (s0 : Regs) (hpin : b0.pin < 32) :
    ∃ s1, Pushbutton_init b0 s0 = some ({ b0 with state := 0 }, s1) := by
  obtain ⟨q, _, he⟩ := pgm_read_ioPins_of_lt b0.pin hpin
  have hg : ¬ b0.pin > NUM_OF_PINS := by simp [NUM_OF_PINS]; omega
  unfold Pushbutton_init
  simp only [GPIO_ARR_setPinDirection_of_entry b0.pin _ s0 q _ hg he]
  split_ifs <;> exact ⟨_, rfl⟩

/-- C28 (counterexample): after `Pushbutton_init`, one call of
`Pushbutton_pressed` on a pin that reads low returns 1, although the sequence
of readings, a single low level, holds no high-to-low transition. -/
theorem Pushbutton_pressed_first_low_counts :
    (Pushbutton_init ⟨2, 7, PIN_INPUT_PULLUP, 0⟩ Regs.zero).map (fun r => r.1)
      = some ⟨2, 0, PIN_INPUT_PULLUP, 0⟩ ∧
    [Regs.zero].map (Pushbutton_level ⟨2, 0, PIN_INPUT_PULLUP, 0⟩) = [false] ∧
    (Pushbutton_poll ⟨2, 0, PIN_INPUT_PULLUP, 0⟩ [Regs.zero]).map (fun r => r.1) = some [1] ∧
    ([1] : List Nat).count 1 = 1 ∧
    highToLowTransitions ([Regs.zero].map (Pushbutton_level ⟨2, 0, PIN_INPUT_PULLUP, 0⟩)) = 0 ∧
    ([1] : List Nat).count 1 ≠
      highToLowTransitions ([Regs.zero].map (Pushbutton_level ⟨2, 0, PIN_INPUT_PULLUP, 0⟩)) := by
  decide

/-- C28 (amended): `Pushbutton_pressed` detects each press once. For a button
on one of the 32 pins, `Pushbutton_init` leaves the state 0. A call made in
state 0 or 1 returns 1 exactly when the pin reads low and the state was 0, and
0 otherwise, and leaves the state 1 if the pin read low and 0 if it read high.
Hence, for every sequence of readings after `Pushbutton_init`, every call
returns 0 or 1, the state after the last call is 1 exactly when the last
reading was low, and the number of 1s returned equals the number of
high-to-low transitions of the sequence preceded by a high level, so that a
low first reading counts as a press. -/
theorem Pushbutton_pressed_counts_presses (b0 : pushbutton) (s0 : Regs) (seq : List Regs)
    (hpin : b0.pin < 32) :
    ∃ b s1, Pushbutton_init b0 s0 = some (b, s1) ∧ b.state = 0 ∧ b.pin = b0.pin ∧
      (∀ (bk : pushbutton) (s : Regs), bk.pin = b0.pin → (bk.state = 0 ∨ bk.state = 1) →
        ∃ v bk1, Pushbutton_pressed bk s = some (v, bk1, s) ∧
          (v = 1 ↔ (Pushbutton_level bk s = false ∧ bk.state = 0)) ∧ (v = 0 ∨ v = 1) ∧
          (bk1.state = 1 ↔ Pushbutton_level bk s = false) ∧
          (bk1.state = 0 ∨ bk1.state = 1) ∧ bk1.pin = bk.pin) ∧
      ∃ vs bN, Pushbutton_poll b seq = some (vs, bN) ∧ vs.length = seq.length ∧
        (∀ v ∈ vs, v = 0 ∨ v = 1) ∧
        (bN.state = 0 ∨ bN.state = 1) ∧
        (∀ sl, seq.getLast? = some sl → (bN.state = 1 ↔ Pushbutton_level b sl = false)) ∧
        vs.count 1 = highToLowTransitions (true :: seq.map (Pushbutton_level b)) := by
  obtain ⟨s1, hinit⟩ := Pushbutton_init_spec b0 s0 hpin
  refine ⟨_, s1, hinit, rfl, rfl, ?_, ?_⟩
  · intro bk s hbk hst
    obtain ⟨v, bk1, hstep, hpin1, hv, hst1⟩ := Pushbutton_pressed_step bk s (by omega)
    refine ⟨v, bk1, hstep, ?_, ?_, ?_, ?_, hpin1⟩
    · rw [hv]
      by_cases hc : Pushbutton_level bk s = false ∧ bk.state = 0 <;> simp [hc]
    · rw [hv]
      by_cases hc : Pushbutton_level bk s = false ∧ bk.state = 0 <;> simp [hc]
    · rw [hst1]
      rcases hst with h | h <;> by_cases hl : Pushbutton_level bk s = true <;> simp [h, hl]
    · rw [hst1]
      rcases hst with h | h <;> by_cases hl : Pushbutton_level bk s = true <;> simp [h, hl]
  · obtain ⟨vs, bN, hpoll, hlen, h01, hcount, _, hstN, hlast⟩ :=
      Pushbutton_poll_spec seq { b0 with state := 0 } hpin (Or.inl rfl)
    exact ⟨vs, bN, hpoll, hlen, h01, hstN, hlast, by simpa using hcount⟩

theorem Pushbutton_pressed_counts_presses_witness :
    (2 : Nat) < 32 ∧
    ∃ b s1, Pushbutton_init ⟨2, 7, PIN_INPUT_PULLUP, 0⟩ Regs.zero = some (b, s1) ∧
      b.state = 0 ∧
      ∃ vs bN,
        Pushbutton_poll b [fun _ => 0xFF, fun _ => 0, fun _ => 0, fun _ => 0xFF, fun _ => 0]
          = some (vs, bN) ∧
        vs.count 1 = highToLowTransitions (true ::
          [fun _ => 0xFF, fun _ => 0, fun _ => 0, fun _ => 0xFF, fun _ => 0].map
            (Pushbutton_level b)) := by
  obtain ⟨b, s1, h1, h2, _, _, vs, bN, h3, _, _, _, _, h4⟩ :=
    Pushbutton_pressed_counts_presses ⟨2, 7, PIN_INPUT_PULLUP, 0⟩ Regs.zero
      [fun _ => 0xFF, fun _ => 0, fun _ => 0, fun _ => 0xFF, fun _ => 0] (by decide)
  exact ⟨by decide, b, s1, h1, h2, vs, bN, h3, h4⟩

/-! ## Application loop: light and LEDs -/

theorem LED_on_positive (id : Nat) (s : Regs) (hid : id ≤ 2) :
    LED_on true id s = some (s.write .PORTB (SET_BIT (s .PORTB) (5 + id))) := by
  obtain ⟨pin, hpin, _, he, hg⟩ := pgm_read_ioPins_LED id hid
  simp [LED_on, hpin, GPIO_ARR_setPinState_of_entry pin _ s .B _ hg he, LOGIC_HIGH, HIGH,
    PortName.PORT]

theorem LED_off_positive (id : Nat) (s : Regs) (hid : id ≤ 2) :
    LED_off true id s = some (s.write .PORTB (CLEAR_BIT (s .PORTB) (5 + id))) := by
  obtain ⟨pin, hpin, _, he, hg⟩ := pgm_read_ioPins_LED id hid
  simp [LED_off, hpin, GPIO_ARR_setPinState_of_entry pin _ s .B _ hg he, LOGIC_LOW, HIGH,
    PortName.PORT]

/-- For a reading up to 327 the light part of the loop returns, and the number
of LEDs it leaves lit is given by the thresholds on floor(r / 2). -/
theorem main_light_of_le (r : Nat) (s : Regs) (h : r ≤ 327) :
    ∃ s1, main_light r s = some s1 ∧
      LEDs_lit s1 = if r / 2 ≤ 15 then 3 else if r / 2 ≤ 50 then 2
        else if r / 2 ≤ 70 then 1 else 0 := by
  have hldr := LDR_getLightIntensity_of_le r h
  have hval : r * 100 / 200 % 256 = r / 2 := by omega
  unfold main_light
  simp only [hldr, Option.bind_eq_bind, Option.some_bind, hval, LED_POSTIVE_LOGIC,
    LED_BLUE_1, LED_GREEN_2, LED_RED_3, LED_on_positive _ _ (Nat.le_refl 2),
    LED_on_positive 1 _ (by norm_num), LED_on_positive 0 _ (by norm_num),
    LED_off_positive _ _ (Nat.le_refl 2), LED_off_positive 1 _ (by norm_num),
    LED_off_positive 0 _ (by norm_num)]
  by_cases h1 : r / 2 ≤ 15
  · refine ⟨_, by rw [if_pos h1], ?_⟩
    simp [h1, LEDs_lit, Regs.write_same, testBit_SET_BIT]
  by_cases h2 : r / 2 ≤ 50
  · refine ⟨_, by rw [if_neg h1, if_pos ⟨by omega, h2⟩], ?_⟩
    simp [h1, h2, LEDs_lit, Regs.write_same, testBit_SET_BIT, testBit_CLEAR_BIT]
  by_cases h3 : r / 2 ≤ 70
  · refine ⟨_, by rw [if_neg h1, if_neg (by omega), if_pos ⟨by omega, h3⟩], ?_⟩
    simp [h1, h2, h3, LEDs_lit, Regs.write_same, testBit_SET_BIT, testBit_CLEAR_BIT]
  · refine ⟨_, by rw [if_neg h1, if_neg (by omega), if_neg (by omega)], ?_⟩
    simp [h1, h2, h3, LEDs_lit, Regs.write_same, testBit_CLEAR_BIT]

/-- Where the light intensity is defined, for readings up to 327, more light
never lights more LEDs. -/
theorem main_light_monotone_in_range (r1 r2 : Nat) (s : Regs) (h12 : r1 ≤ r2)
    (h2 : r2 ≤ 327) :
    ∃ t1 t2, main_light r1 s = some t1 ∧ main_light r2 s = some t2 ∧
      LEDs_lit t2 ≤ LEDs_lit t1 := by
  obtain ⟨t1, e1, n1⟩ := main_light_of_le r1 s (by omega)
  obtain ⟨t2, e2, n2⟩ := main_light_of_le r2 s h2
  refine ⟨t1, t2, e1, e2, ?_⟩
  rw [n1, n2]
  split_ifs <;> omega

/-- C29 (failing input): for the readings 300 ≤ 656 the bound fails to hold.
The reading 300 gives intensity 150 and no LED lit. For the reading 656 the
product 656 * 100 exceeds the greatest 16-bit `int`, so the intensity, and
with it the LEDs, has no defined result; with two's-complement wrap-around the
product is 64, the intensity 0, and intensity 0 lights all three LEDs. -/
theorem main_light_656_undefined (s : Regs) :
    ((300 : Nat) ≤ 656 ∧ (656 : Nat) ≤ 1023) ∧
    (∃ t1, main_light 300 s = some t1 ∧ LEDs_lit t1 = 0) ∧
    INT_MAX < (656 : Int) * 100 ∧
    LDR_getLightIntensity 656 = none ∧
    main_light 656 s = none ∧
    uint8_of_int (Int.tdiv ((656 : Int) * 100 - 65536) 200) = 0 ∧
    (∃ t0, main_light 0 s = some t0 ∧ LEDs_lit t0 = 3) := by
  have hnone : LDR_getLightIntensity 656 = none := by decide
  obtain ⟨t1, e1, n1⟩ := main_light_of_le 300 s (by norm_num)
  obtain ⟨t0, e0, n0⟩ := main_light_of_le 0 s (by norm_num)
  refine ⟨by decide, ⟨t1, e1, by simpa using n1⟩, by decide, hnone, ?_, by decide,
    ⟨t0, e0, by simpa using n0⟩⟩
  simp [main_light, hnone]

/-! ## Concrete evaluations -/

theorem eval_setPinState_PB5 :
    (GPIO_ARR_setPinState 13 HIGH Regs.zero).map (fun s => s .PORTB) = some 32 := by decide

theorem eval_setPinDirection_PD7 :
    (GPIO_ARR_setPinDirection 31 PIN_INPUT_PULLUP (fun _ => 255)).map
      (fun s => (s .DDRD, s .PORTD)) = some (127, 255) := by decide

theorem eval_Timer0_init_fast_pwm :
    Timer0_init ⟨TIMER0_MODE_FAST_PWM, 3, 2, 0, 200, 0⟩ Regs.zero .TCCR0 = 0x6B := by decide

theorem eval_Timer0_init_ctc :
    Timer0_init ⟨TIMER0_MODE_CTC, 0xFD, 0xFF, 1, 9, 0⟩ (fun _ => 255) .TCCR0 = 0xBD ∧
    Timer0_init ⟨TIMER0_MODE_CTC, 0xFD, 0xFF, 1, 9, 0⟩ (fun _ => 255) .TIMSK = 0xFE := by decide

theorem eval_Timer0_init_normal :
    Timer0_init ⟨TIMER0_MODE_NORMAL, 5, 3, 1, 9, 7⟩ (fun _ => 255) .TCCR0 = 0x85 := by decide

theorem eval_MAP :
    MAP 75 0 100 0 255 = some 191 ∧ MAP 129 0 100 0 255 = none ∧
    MAP 201 0 200 0 100 = some 100 := by decide

theorem eval_LDR_getLightIntensity :
    LDR_getLightIntensity 100 = some 50 ∧ LDR_getLightIntensity 201 = some 100 ∧
    LDR_getLightIntensity 327 = some 163 ∧ LDR_getLightIntensity 328 = none := by decide

theorem eval_DcMotor_rotate :
    (DcMotor_rotate CW 75 Regs.zero).map (fun s => (s .PORTB, s .OCR0)) = some (1, 191) := by
  decide

theorem eval_LCD_displayString :
    (LCD_displayString [72, 105, 0] ⟨Regs.zero, []⟩).map (fun r => (r.1, r.2.transfers)) =
      some (SUCSSES, [.data 72, .data 105]) := by decide

theorem eval_port_level :
    GPIO_tooglePin PORTB_ID 3 (fun _ => 0xF0) .PORTB = 0xF8 ∧
    GPIO_writePin PORTD_ID 7 LOW (fun _ => 0xFF) .PORTD = 0x7F ∧
    (GPIO_readPin PORTC_ID 7 (fun _ => 0x80)).1 = 1 ∧
    GPIO_setupPinDirection PORTA_ID 2 PIN_INPUT_PULLUP Regs.zero .PORTA = 4 := by decide

theorem eval_main_light :
    (main_light 20 Regs.zero).map LEDs_lit = some 3 ∧
    (main_light 60 Regs.zero).map LEDs_lit = some 2 ∧
    (main_light 120 Regs.zero).map LEDs_lit = some 1 ∧
    (main_light 300 Regs.zero).map LEDs_lit = some 0 ∧
    (main_light 656 Regs.zero).map LEDs_lit = none := by decide

theorem eval_Pushbutton_poll :
    (Pushbutton_poll ⟨2, 0, 2, 0⟩ [fun _ => 0, fun _ => 0, fun _ => 0xFF, fun _ => 0]).map
      (fun r => r.1) = some [1, 0, 0, 1] := by decide

theorem eval_LCD_moveCursor :
    (LCD_moveCursor 1 9 ⟨Regs.zero, []⟩).map (fun w => w.transfers) = some [.command 0xC9] := by
  decide

end SmartHome
